import Mathlib

/-!
# Serialization-Tools: a shallow embedding of the save-file decoder

This file embeds, in Lean 4, the decoding core of the Serialization-Tools
repository (the `StructIO` bounded-stream / layout codec and the
`satisfactory` save-file decoder) and proves properties of the embedded
definitions.

Modelling conventions, shared by every definition below:

* A byte stream (Python `BytesIO` or a file opened for reading) is a pair of
  an immutable byte buffer and a cursor: `RState`.  Bytes are `Nat`s
  (each `< 256` on well-formed inputs; decoders never rely on the bound).
* Python strings that the decoder merely carries around are kept as their
  raw byte lists (`List Nat`); text decoding (UTF-8) is not modelled since
  no decode decision in the claims depends on it.
* A `BinaryWindow` over a stream is modelled by the absolute offset of its
  window end; reads through a window clamp at the window end exactly as
  `BinaryWindow.read` does.  Nested windows pass down the minimum of the
  enclosing ends (`lim` parameters), which is the effective clamp realised
  by the chain of nested `read` calls in the source.
* Python exceptions (failed `assert`s, `ValueError`, `NotImplementedError`,
  `struct.error`, ...) become `Except Err` failures with a constructor per
  failure site; `NonePropertyError`, which the source uses as control flow
  to end a property list, is modelled as a `none` result of
  `PropertyHeader.unpack` (whose own Python type hint is `Optional`).
* IEEE-754 `float32` fields are carried as their 4-byte little-endian bit
  patterns (`Nat < 2^32`); the decoders only move these bytes around.
* Mutual recursion between the property engine and the structure registry
  is made total with an explicit `fuel` argument; every recursive entry
  point consumes one unit of fuel, and theorems quantify over a sufficient
  fuel offset.
-/

namespace SerTools

/-- A seekable byte source with its current read position, the model of a
Python `BytesIO`/file object. -/
structure RState where
  data : List Nat
  pos : Nat
deriving DecidableEq, Repr

/-- One constructor per distinct failure site of the decoder (Python
exception). -/
inductive Err where
  /-- Model: `struct.unpack` on a buffer shorter than the format, or a
  length-prefixed read that could not obtain its declared byte count. -/
  | shortRead
  /-- Model: `_VarLenStruct.unpack_stream_size`: `assert s >= 0` on a negative
  signed length prefix. -/
  | negLength
  /-- Model: `PropertyType(...)`: `ValueError` for a tag string outside the enum. -/
  | badPropertyType
  /-- Model: `NonePropertyError` escaping to a caller that does not catch it. -/
  | noneProperty
  /-- Model: `Property.unpack`: `NotImplementedError` for a type with no entry in
  `_unpack_map`. -/
  | unknownPropertyType
  /-- Model: `create_property_window`: `assert buffer_start_byte == b'\x00'`. -/
  | flagByte
  /-- Model: `assert end_of_stream(window)` inside a per-property payload decoder. -/
  | windowNotExhausted
  /-- Model: `assert zero == 0` / `assert unk == 0` on a must-be-zero field. -/
  | zeroCheck
  /-- Model: `BoolProperty.unpack`: `assert header.read_size == 0`. -/
  | boolSize
  /-- Model: `BoolProperty.unpack`: `assert flag == 0`. -/
  | boolFlag
  /-- Model: `ArrayProperty.unpack`: `NotImplementedError` for an element type with
  neither a whole-array nor a bare-element decoder. -/
  | arrayTypeUnsupported
  /-- Model: `MapProperty.unpack`: `KeyError` on `_unpack_element_map[...]`. -/
  | keyError
  /-- Model: `ByteProperty.unpack_element`: `NotImplementedError`. -/
  | byteElemUnsupported
  /-- Model: `StructArrayProperty.unpack_struct_array`: failed header assertions. -/
  | structArrayHeader
  /-- Model: `Structure.unpack_as_type`: `TypeError`, the registry maps the name to
  `None` and `None` is not callable. -/
  | nullUnpacker
  /-- Model: `Structure.unpack_as_type`: the `type[-1]` assertions (empty name or
  trailing NUL). -/
  | typeAssert
  /-- Model: `ChunkHeader.unpack`: a redundant length field disagrees with its
  primary. -/
  | verifyMismatch
  /-- Model: `Chunk.read_body`: inflated size differs from `uncompressed_len`. -/
  | decompressSizeMismatch
  /-- Model: `Chunk.read_body`: fewer than `compressed_len` bytes available. -/
  | chunkShortRead
  /-- Model: `zlib.decompress` failure (abstract). -/
  | inflateError
  /-- Model: `SaveBody.unpack`: `assert before + data_size == after`. -/
  | bodySizeMismatch
  /-- Model: `SaveBody.unpack`: second object count differs from the first. -/
  | countMismatch
  /-- Model: `SaveBody.unpack`: final `assert before == after` (unconsumed bytes). -/
  | trailingData
  /-- Model: `WorldObject.unpack`: `ValueError` on an object type other than 0/1. -/
  | badObjectType
  /-- Model: `BinaryWindow`: `assert start <= end` or a seek leaving the window. -/
  | windowInvalid
  /-- Model: `BytesIO.seek`: negative target or unsupported whence. -/
  | badSeek
  /-- Model: `DataWorldObject.read_properties`: `assert end_of_stream(window)`. -/
  | objectWindowShort
  /-- Model: `struct.Struct.pack`: argument count differs from the format. -/
  | arityError
  /-- Model: `struct.Struct.pack`: an argument has the wrong runtime type. -/
  | packTypeError
  /-- Model: `StructIO.unpack_len_encoded_str` with `null_terminated=True`:
  non-empty string without a trailing NUL. -/
  | strTermMissing
  /-- Recursion fuel exhausted (modelling artefact; never reached by any
  theorem below, which always supply enough fuel). -/
  | fuelOut
deriving DecidableEq, Repr

/-- Result of a decode step: failure, or a value and the advanced stream. -/
abbrev DecRes (α : Type) := Except Err (α × RState)

/-- Little-endian value of a byte list (`int.from_bytes(..., "little")`). -/
def leNat : List Nat → Nat
  | [] => 0
  | b :: bs => b + 256 * leNat bs

/-- Model: `width`-byte little-endian encoding of `value mod 256^width`. -/
def leBytes : Nat → Nat → List Nat
  | 0, _ => []
  | w + 1, v => v % 256 :: leBytes w (v / 256)

/-- Signed interpretation of a 32-bit little-endian chunk (`struct` code
`i`). -/
def i32OfLE (c : List Nat) : Int :=
  if leNat c < 2 ^ 31 then (leNat c : Int) else (leNat c : Int) - 2 ^ 32

/-- Signed interpretation of a 64-bit little-endian chunk (`struct` code
`q`). -/
def i64OfLE (c : List Nat) : Int :=
  if leNat c < 2 ^ 63 then (leNat c : Int) else (leNat c : Int) - 2 ^ 64

/-- Model: `stream.read(n)` through a window chain whose innermost effective end is
`lim`: at most `min n (lim - pos)` bytes, further clamped by the end of the
underlying buffer (`List.take`/`List.drop` clamp there). -/
def readN (lim n : Nat) (s : RState) : List Nat × RState :=
  let chunk := (s.data.drop s.pos).take (min n (lim - s.pos))
  (chunk, ⟨s.data, s.pos + chunk.length⟩)

/-- A read that must produce exactly `n` bytes (`struct.unpack` raises on a
short buffer; `_VarLenStruct` asserts the blob length). -/
def readExact (lim n : Nat) (s : RState) : DecRes (List Nat) :=
  let r := readN lim n s
  if r.1.length = n then .ok r else .error .shortRead

/-- Model: `Struct("I").unpack_stream`: one unsigned little-endian 32-bit integer. -/
def readU32 (lim : Nat) (s : RState) : DecRes Nat :=
  match readExact lim 4 s with
  | .error e => .error e
  | .ok (c, s') => .ok (leNat c, s')

/-- Model: `Struct("Q").unpack_stream`: one unsigned little-endian 64-bit integer. -/
def readU64 (lim : Nat) (s : RState) : DecRes Nat :=
  match readExact lim 8 s with
  | .error e => .error e
  | .ok (c, s') => .ok (leNat c, s')

/-- One `v` token of `_VarLenStruct.unpack_stream_size`: a signed 32-bit
length prefix (asserted non-negative), then exactly that many raw bytes. -/
def readVBytes (lim : Nat) (s : RState) : DecRes (List Nat) :=
  match readExact lim 4 s with
  | .error e => .error e
  | .ok (c, s1) =>
      if 2 ^ 31 ≤ leNat c then .error .negLength
      else readExact lim (leNat c) s1

/-- Model: `buffer_to_str` with its default `strip_null=True`: drop one trailing
NUL byte when present (text decoding itself is not modelled). -/
def buffer_to_str (buffer : List Nat) : List Nat :=
  if buffer.getLast? = some 0 then buffer.dropLast else buffer

/-- The byte list of an ASCII Lean string literal. -/
def strBytes (s : String) : List Nat :=
  s.data.map fun c => c.toNat

/-- Wire encoding of a `v` field: signed 32-bit length prefix + payload
(used to build concrete test inputs and state consumption claims). -/
def vEnc (payload : List Nat) : List Nat :=
  leBytes 4 payload.length ++ payload

/-! ## `StructIO.bookmark` (StructIO/structio.py, lines 75-79)

The source is a `@contextmanager` generator with no `try/finally`:

    pos = self.stream.tell()
    yield
    self.stream.seek(pos)

A body that raises is thrown into the generator at the `yield`; since
nothing catches it there, the trailing `seek(pos)` never runs.  To express
this, the body is modelled as a state transformer that reports success or
failure *and* the stream state at the moment it returned or raised (a Python
stream keeps its position when an exception unwinds through it). -/

/-- Outcome of running a stream-consuming body: the result (or the
exception) together with the stream as the body left it. -/
abbrev IOResult (α : Type) := Except Err α × RState

/-- Model: `StructIO.bookmark`: remember the position, run the body, and seek back
— but only on the normal-return path, because the generator has no
`try/finally` around its `yield`. -/
def StructIo.bookmark {α : Type} (body : RState → IOResult α) (s : RState) :
    IOResult α :=
  let pos := s.pos
  match body s with
  | (.ok a, s') => (.ok a, ⟨s'.data, pos⟩)
  | (.error e, s') => (.error e, s')

/-- A body that advances the stream by one byte and then fails, standing for
any decode step that raises mid-way. -/
def advanceThenFail (s : RState) : IOResult Unit :=
  (.error .shortRead, ⟨s.data, s.pos + 1⟩)

/-- A body that advances the stream by one byte and returns normally. -/
def advanceThenOk (s : RState) : IOResult Unit :=
  (.ok (), ⟨s.data, s.pos + 1⟩)

/-! ## `BinaryWindow` (StructIO/structio.py, lines 197-305)

Modelled for a window directly over the byte source; `start`/`stop` are the
absolute bounds (`_start`/`_end` in the source, `end` being reserved in
Lean).  `read` clamps to the remaining window size and the underlying
buffer; `seek` recomputes an absolute target, moves, and then checks
`start <= position <= end`, raising otherwise (the underlying stream is
left at the invalid target when that exception propagates). -/

structure BinaryWindow where
  start : Nat
  stop : Nat
deriving DecidableEq, Repr

/-- Model: `__remaining_bytes`: distance to the window end, clamped at zero. -/
def BinaryWindow.remaining (w : BinaryWindow) (s : RState) : Nat :=
  w.stop - s.pos

/-- Model: `BytesIO.read` on the underlying source: a negative count reads to the
end of the buffer, otherwise up to `k` bytes. -/
def rawRead (k : Int) (s : RState) : List Nat × RState :=
  let chunk :=
    if k < 0 then s.data.drop s.pos else (s.data.drop s.pos).take k.toNat
  (chunk, ⟨s.data, s.pos + chunk.length⟩)

/-- Model: `BinaryWindow.read(n)` (default `n = -1` reads the rest of the
window). -/
def BinaryWindow.read (w : BinaryWindow) (n : Int) (s : RState) :
    List Nat × RState :=
  if n = -1 then rawRead (w.remaining s) s
  else if n ≤ (w.remaining s : Int) then rawRead n s
  else rawRead (w.remaining s) s

/-- The absolute seek target `BinaryWindow.seek` computes for each
`whence`; `none` for a whence the underlying `BytesIO` rejects. -/
def BinaryWindow.seekTarget (w : BinaryWindow) (offset : Int) (whence : Nat)
    (s : RState) : Option Int :=
  match whence with
  | 0 => some ((w.start : Int) + offset)
  | 1 => some ((s.pos : Int) + offset)
  | 2 => some ((w.stop : Int) - offset)
  | _ => none

/-- Model: `BinaryWindow.seek`: move the underlying stream to the recomputed
absolute target, then raise unless `start <= position <= end`; on success
return `tell()` (window-relative). -/
def BinaryWindow.seek (w : BinaryWindow) (offset : Int) (whence : Nat)
    (s : RState) : DecRes Nat :=
  match w.seekTarget offset whence s with
  | none => .error .badSeek
  | some t =>
      if t < 0 then .error .badSeek
      else
        let p := t.toNat
        if w.start ≤ p ∧ p ≤ w.stop then .ok (p - w.start, ⟨s.data, p⟩)
        else .error .windowInvalid

/-! ## `ChunkHeader` and `Chunk` (satisfactory/save.py, lines 222-268) -/

structure ChunkHeader where
  package_file_tag : Nat
  maximum_chunk_size : Nat
  compressed_len : Nat
  uncompressed_len : Nat
deriving DecidableEq, Repr

/-- Model: `ChunkHeader.unpack`: `VStruct("6Q")` reads 48 bytes as six consecutive
unsigned little-endian 64-bit integers, then asserts each redundant length
against its primary (compressed first, then uncompressed). -/
def ChunkHeader.unpack (lim : Nat) (s : RState) : DecRes ChunkHeader :=
  match readExact lim 48 s with
  | .error e => .error e
  | .ok (c, s') =>
      let tag := leNat (c.take 8)
      let maxSize := leNat ((c.drop 8).take 8)
      let compLen := leNat ((c.drop 16).take 8)
      let uncompLen := leNat ((c.drop 24).take 8)
      let compLenVerify := leNat ((c.drop 32).take 8)
      let uncompLenVerify := leNat ((c.drop 40).take 8)
      if compLen = compLenVerify then
        if uncompLen = uncompLenVerify then
          .ok (⟨tag, maxSize, compLen, uncompLen⟩, s')
        else .error .verifyMismatch
      else .error .verifyMismatch

structure Chunk where
  header : ChunkHeader
  ptr : Nat
deriving DecidableEq, Repr

/-- Model: `Chunk.unpack`: decode the header, remember the payload offset, skip
over the compressed payload. -/
def Chunk.unpack (lim : Nat) (s : RState) : DecRes Chunk :=
  match ChunkHeader.unpack lim s with
  | .error e => .error e
  | .ok (header, s') =>
      .ok (⟨header, s'.pos⟩, ⟨s'.data, s'.pos + header.compressed_len⟩)

/-- Model: `Chunk.read_body`: jump to the payload, read exactly `compressed_len`
bytes, jump back, optionally inflate (`zlib.decompress`, abstracted as a
caller-supplied function) and assert the inflated length equals
`uncompressed_len`. -/
def Chunk.read_body (inflate : List Nat → Option (List Nat))
    (decompress : Bool) (chunk : Chunk) (s : RState) : DecRes (List Nat) :=
  let return_to := s.pos
  let r := rawRead (chunk.header.compressed_len : Int) ⟨s.data, chunk.ptr⟩
  let s' : RState := ⟨s.data, return_to⟩
  if r.1.length = chunk.header.compressed_len then
    if decompress then
      match inflate r.1 with
      | none => .error .inflateError
      | some out =>
          if out.length = chunk.header.uncompressed_len then .ok (out, s')
          else .error .decompressSizeMismatch
    else .ok (r.1, s')
  else .error .chunkShortRead

/-- Decoding one chunk and inflating its body, as `CompressedSave.unpack`
followed by `decompress_body_into` does per chunk. -/
def Chunk.unpackAndRead (inflate : List Nat → Option (List Nat))
    (lim : Nat) (s : RState) : DecRes (List Nat) :=
  match Chunk.unpack lim s with
  | .error e => .error e
  | .ok (chunk, s') => Chunk.read_body inflate true chunk s'

/-- The 48 header bytes for given primary and verification fields. -/
def mkChunkHeaderBytes (tag maxSize compLen uncompLen compLenV uncompLenV :
    Nat) : List Nat :=
  leBytes 8 tag ++ (leBytes 8 maxSize ++ (leBytes 8 compLen ++
    (leBytes 8 uncompLen ++ (leBytes 8 compLenV ++ leBytes 8 uncompLenV))))

/-! ## Fixed native structs and their `pack` methods
(satisfactory/structures.py, lines 10-128; StructIO/structio.py, lines
90-93)

`StructIO.pack(layout, data)` forwards the single `data` object to
`struct.Struct.pack`, which demands exactly one positional argument per
format code.  Every vector/color `pack` in the source passes the whole
tuple of fields as that single object. -/

/-- One `struct` format code as used by the native structs (`f` for
float32, `c` for a 1-byte char). -/
inductive PackCode where
  | f32
  | char
deriving DecidableEq, Repr

/-- A Python runtime value handed to `struct.Struct.pack`. -/
inductive PyVal where
  | int (i : Int)
  | float (bits : Nat)
  | bytes (bs : List Nat)
  | tuple (vs : List PyVal)

/-- Pack a single argument against one format code; anything of the wrong
runtime type is a `struct.error`. -/
def packOne : PackCode → PyVal → Except Err (List Nat)
  | .f32, .float bits => .ok (leBytes 4 bits)
  | .char, .bytes [b] => .ok [b]
  | _, _ => .error .packTypeError

/-- Pack the argument list element-wise once the arity matched. -/
def packArgs : List PackCode → List PyVal → Except Err (List Nat)
  | [], [] => .ok []
  | code :: codes, a :: as_ =>
      match packOne code a with
      | .error e => .error e
      | .ok bs =>
          match packArgs codes as_ with
          | .error e => .error e
          | .ok rest => .ok (bs ++ rest)
  | _, _ => .error .arityError

/-- Model: `struct.Struct.pack(*v)`: raises `struct.error` unless exactly one
argument per format code is supplied. -/
def structPack (codes : List PackCode) (args : List PyVal) :
    Except Err (List Nat) :=
  if args.length = codes.length then packArgs codes args
  else .error .arityError

/-- Model: `StructIO.pack(layout, data)`: `layout.pack(data)` — the single `data`
object is the one and only positional argument (the source never unpacks a
tuple into separate arguments).  Returns the bytes there were to write. -/
def StructIo.pack (codes : List PackCode) (data : PyVal) :
    Except Err (List Nat) :=
  structPack codes [data]

/-- Model: `Vector2` with its two float32 fields as bit patterns. -/
structure Vector2 where
  x : Nat
  y : Nat
deriving DecidableEq, Repr

structure Vector3 where
  x : Nat
  y : Nat
  z : Nat
deriving DecidableEq, Repr

structure Vector4 where
  x : Nat
  y : Nat
  z : Nat
  w : Nat
deriving DecidableEq, Repr

/-- Byte-quad color (`Color32`); fields hold the byte values. -/
structure Color32 where
  r : Nat
  g : Nat
  b : Nat
  a : Nat
deriving DecidableEq, Repr

/-- Model: `Vector2.pack`: `writer.pack("2f", (self.x, self.y))`. -/
def Vector2.pack (v : Vector2) : Except Err (List Nat) :=
  StructIo.pack [.f32, .f32] (.tuple [.float v.x, .float v.y])

/-- Model: `Vector3.pack`: `writer.pack("3f", (self.x, self.y, self.z))`. -/
def Vector3.pack (v : Vector3) : Except Err (List Nat) :=
  StructIo.pack [.f32, .f32, .f32] (.tuple [.float v.x, .float v.y, .float v.z])

/-- Model: `Vector4.pack`: `writer.pack("4f", (self.x, self.y, self.z, self.w))`. -/
def Vector4.pack (v : Vector4) : Except Err (List Nat) :=
  StructIo.pack [.f32, .f32, .f32, .f32]
    (.tuple [.float v.x, .float v.y, .float v.z, .float v.w])

/-- Model: `Color32._is_byte` / `is_valid`. -/
def Color32.is_valid (c : Color32) : Bool :=
  c.r ≤ 255 && c.g ≤ 255 && c.b ≤ 255 && c.a ≤ 255

/-- Model: `Color32.pack`: validity check, then
`writer.pack("4c", (self.r, self.g, self.b, self.a))`. -/
def Color32.pack (c : Color32) : Except Err (List Nat) :=
  if c.is_valid then
    StructIo.pack [.char, .char, .char, .char]
      (.tuple [.int c.r, .int c.g, .int c.b, .int c.a])
  else .error .badPropertyType

/-- Model: `Vector2.unpack`: `reader.unpack("2f")`, 8 bytes. -/
def Vector2.unpack (lim : Nat) (s : RState) : DecRes Vector2 :=
  match readExact lim 8 s with
  | .error e => .error e
  | .ok (c, s') =>
      .ok (⟨leNat (c.take 4), leNat ((c.drop 4).take 4)⟩, s')

/-- Model: `Vector3.unpack`: `reader.unpack("3f")`, 12 bytes. -/
def Vector3.unpack (lim : Nat) (s : RState) : DecRes Vector3 :=
  match readExact lim 12 s with
  | .error e => .error e
  | .ok (c, s') =>
      .ok (⟨leNat (c.take 4), leNat ((c.drop 4).take 4),
            leNat ((c.drop 8).take 4)⟩, s')

/-- Model: `Vector4.unpack`: `reader.unpack("4f")`, 16 bytes. -/
def Vector4.unpack (lim : Nat) (s : RState) : DecRes Vector4 :=
  match readExact lim 16 s with
  | .error e => .error e
  | .ok (c, s') =>
      .ok (⟨leNat (c.take 4), leNat ((c.drop 4).take 4),
            leNat ((c.drop 8).take 4), leNat ((c.drop 12).take 4)⟩, s')

/-- Model: `Color32.unpack`: `reader.unpack("4c")`, 4 single bytes. -/
def Color32.unpack (lim : Nat) (s : RState) : DecRes Color32 :=
  match readExact lim 4 s with
  | .error e => .error e
  | .ok (c, s') =>
      .ok (⟨c.headI, (c.drop 1).headI, (c.drop 2).headI, (c.drop 3).headI⟩, s')

/-! ## Int64 array vs element decoders (satisfactory/properties.py, lines
148-166) -/

/-- Split a buffer into `count` unsigned little-endian 32-bit integers
(`struct` format `"{count}I"`). -/
def chunkU32s : Nat → List Nat → List Int
  | 0, _ => []
  | n + 1, c => (leNat (c.take 4) : Int) :: chunkU32s n (c.drop 4)

/-- Split a buffer into `count` signed little-endian 32-bit integers
(`struct` format `"{count}i"`). -/
def chunkI32s : Nat → List Nat → List Int
  | 0, _ => []
  | n + 1, c => i32OfLE (c.take 4) :: chunkI32s n (c.drop 4)

/-- Split a buffer into `count` float32 bit patterns (`"{count}f"`). -/
def chunkF32s : Nat → List Nat → List Nat
  | 0, _ => []
  | n + 1, c => leNat (c.take 4) :: chunkF32s n (c.drop 4)

/-- Model: `Int64PropertyData.unpack_element`: `Struct("q")`, one signed 64-bit
integer, 8 bytes. -/
def Int64PropertyData.unpack_element (lim : Nat) (s : RState) : DecRes Int :=
  match readExact lim 8 s with
  | .error e => .error e
  | .ok (c, s') => .ok (i64OfLE c, s')

/-- Model: `Int64PropertyData.unpack_array`:
`structx.unpack_stream(f"{count}I", stream)` — the registered whole-array
decoder reads `count` UNSIGNED 32-BIT integers (4·count bytes), exactly as
written in the source. -/
def Int64PropertyData.unpack_array (lim count : Nat) (s : RState) :
    DecRes (List Int) :=
  match readExact lim (4 * count) s with
  | .error e => .error e
  | .ok (c, s') => .ok (chunkU32s count c, s')

/-- Model: `IntPropertyData.unpack_element`: `Struct("i")`, 4 bytes signed. -/
def IntPropertyData.unpack_element (lim : Nat) (s : RState) : DecRes Int :=
  match readExact lim 4 s with
  | .error e => .error e
  | .ok (c, s') => .ok (i32OfLE c, s')

/-- Model: `IntPropertyData.unpack_array`: `f"{count}i"`, 4·count bytes signed. -/
def IntPropertyData.unpack_array (lim count : Nat) (s : RState) :
    DecRes (List Int) :=
  match readExact lim (4 * count) s with
  | .error e => .error e
  | .ok (c, s') => .ok (chunkI32s count c, s')

/-- Model: `FloatPropertyData.unpack_element`: `Struct("f")`, 4 bytes. -/
def FloatPropertyData.unpack_element (lim : Nat) (s : RState) : DecRes Nat :=
  match readExact lim 4 s with
  | .error e => .error e
  | .ok (c, s') => .ok (leNat c, s')

/-- Model: `FloatPropertyData.unpack_array`: `f"{count}f"`, 4·count bytes. -/
def FloatPropertyData.unpack_array (lim count : Nat) (s : RState) :
    DecRes (List Nat) :=
  match readExact lim (4 * count) s with
  | .error e => .error e
  | .ok (c, s') => .ok (chunkF32s count c, s')

/-! ## The property engine (satisfactory/properties.py) and structure
registry (satisfactory/structures.py) -/

/-- Model: `PropertyType`: the closed enum of property type tags. -/
inductive PropertyType where
  | Array
  | Float
  | Int
  | Byte
  | Enum
  | Bool
  | String
  | Name
  | Object
  | Struct
  | Map
  | Text
  | Set
  | Int64
  | Int8
  | Interface
deriving DecidableEq, Repr

/-- Model: `PropertyType(tag)`: look a tag string up in the enum (`ValueError`,
i.e. `none`, outside it). -/
def PropertyType.ofBytes (bs : List Nat) : Option PropertyType :=
  if bs = strBytes "ArrayProperty" then some .Array
  else if bs = strBytes "FloatProperty" then some .Float
  else if bs = strBytes "IntProperty" then some .Int
  else if bs = strBytes "ByteProperty" then some .Byte
  else if bs = strBytes "EnumProperty" then some .Enum
  else if bs = strBytes "BoolProperty" then some .Bool
  else if bs = strBytes "StrProperty" then some .String
  else if bs = strBytes "NameProperty" then some .Name
  else if bs = strBytes "ObjectProperty" then some .Object
  else if bs = strBytes "StructProperty" then some .Struct
  else if bs = strBytes "MapProperty" then some .Map
  else if bs = strBytes "TextProperty" then some .Text
  else if bs = strBytes "SetProperty" then some .Set
  else if bs = strBytes "Int64Property" then some .Int64
  else if bs = strBytes "Int8Property" then some .Int8
  else if bs = strBytes "InterfaceProperty" then some .Interface
  else none

/-- Model: `PropertyHeader`: name, type tag, index and the declared payload size
(`read_size`). -/
structure PropertyHeader where
  name : List Nat
  property_type : PropertyType
  index : Nat
  read_size : Nat
deriving DecidableEq, Repr

/-- Model: `PropertyHeader.unpack`: a `v` name (NUL-stripped); the sentinel name
`"None"` raises `NonePropertyError` (modelled as `none`) before any further
field; otherwise a `v2I` of type tag, declared size and index, with the tag
looked up in the enum. -/
def PropertyHeader.unpack (lim : Nat) (s : RState) :
    DecRes (Option PropertyHeader) :=
  match readVBytes lim s with
  | .error e => .error e
  | .ok (nameB, s1) =>
      if buffer_to_str nameB = strBytes "None" then .ok (none, s1)
      else
        match readVBytes lim s1 with
        | .error e => .error e
        | .ok (ptB, s2) =>
            match readU32 lim s2 with
            | .error e => .error e
            | .ok (size, s3) =>
                match readU32 lim s3 with
                | .error e => .error e
                | .ok (index, s4) =>
                    match PropertyType.ofBytes (buffer_to_str ptB) with
                    | none => .error .badPropertyType
                    | some pt =>
                        .ok (some ⟨buffer_to_str nameB, pt, index, size⟩, s4)

/-- Which types have an entry in `_unpack_map` (built from
`property2class`; `Text`, `Set` and `Int8` have none — the `Int8` line is
commented out in the source). -/
def hasUnpacker : PropertyType → Bool
  | .Text => false
  | .Set => false
  | .Int8 => false
  | _ => true

/-- Which types have an entry in `_unpack_element_map` (classes defining
`unpack_element`). -/
def elemUnpackerExists : PropertyType → Bool
  | .Int => true
  | .Int64 => true
  | .Float => true
  | .Object => true
  | .Byte => true
  | .Bool => true
  | .Struct => true
  | .Interface => true
  | _ => false

/-- Which types have an entry in `_unpack_array_map` (classes defining
`unpack_array`). -/
def arrayBulkExists : PropertyType → Bool
  | .Int => true
  | .Int64 => true
  | .Float => true
  | .Byte => true
  | .Bool => true
  | .Struct => true
  | _ => false

mutual

/-- The decoded payload of one property (one constructor per
`PropertyData` subclass, plus the raw values bare-element decoders hand
back for array/map entries). -/
inductive PropertyData where
  | stringData (name : List Nat)
  | intData (value : Int)
  | int64Data (value : Int)
  | floatData (bits : Nat)
  | objectData (level path : List Nat)
  | byteData (byte_type : List Nat) (value : List Nat)
  | boolData (internal_value : Nat)
  | structData (abcd : Nat × Nat × Nat × Nat) (structure_val : StructureVal)
  | nameData (name : List Nat)
  | arrayData (array_type : PropertyType) (values : ArrayValues)
  | structArrayData (array_type : PropertyType) (values : List StructureVal)
      (sub_header : PropertyHeader) (abcd : Nat × Nat × Nat × Nat)
      (structure_type : List Nat)
  | mapData (key_type value_type : PropertyType)
      (entries : List (PropertyData × PropertyData))
  | enumData (enum_type enum_name : List Nat)
  | interfaceData (a b : List Nat)
  | rawBytes (bs : List Nat)
  | elemStructure (st : StructureVal)

/-- The value list of an `ArrayProperty` (`bytes` for the raw bulk
decoders, plain numbers for the numeric bulk decoders, decoded elements
otherwise). -/
inductive ArrayValues where
  | ints (vs : List Int)
  | floats (bs : List Nat)
  | raw (bs : List Nat)
  | props (vs : List PropertyData)

/-- A decoded structure: the `structure_type` attribute
(`None` inside the specific unpackers, assigned by `unpack_as_type`) and
the variant payload. -/
inductive StructureVal where
  | mk (structure_type : Option (List Nat)) (body : StructureBody)

/-- One constructor per structure shape the registry can produce. -/
inductive StructureBody where
  | dynamic (properties : List Property)
  | box (min max : Vector3) (unk : List Nat)
  | fluidBox (bits : Nat)
  | guid (data : List Nat)
  | inventoryItem (a : Int) (item_type b c : List Nat)
  | vec2 (v : Vector2)
  | vec3 (v : Vector3)
  | vec4 (v : Vector4)
  | color32 (c : Color32)
  | colorFloat (r g b a : Nat)

/-- One decoded property. -/
inductive Property where
  | mk (header : PropertyHeader) (data : PropertyData)

end

/-- The `structure_type` attribute of a decoded structure. -/
def StructureVal.structure_type : StructureVal → Option (List Nat)
  | .mk t _ => t

/-- Model: `structure.structure_type = type` (the assignment in
`Structure.unpack_as_type`). -/
def StructureVal.withType (t : List Nat) : StructureVal → StructureVal
  | .mk _ b => .mk (some t) b

/-- Model: `create_property_window`: read one byte (not length-checked), assert it
is `b"\x00"`, and open a `BinaryWindow` of `header.read_size` bytes.
Returns the absolute window end together with the advanced stream. -/
def create_property_window (lim : Nat) (hdr : PropertyHeader) (s : RState) :
    DecRes Nat :=
  let r := readN lim 1 s
  if r.1 = [0] then .ok (r.2.pos + hdr.read_size, r.2) else .error .flagByte

/-- Model: `StringPropertyData.unpack`: a `v` string inside the declared-size
window, which must then be exactly exhausted. -/
def StringPropertyData.unpack (lim : Nat) (hdr : PropertyHeader)
    (s : RState) : DecRes PropertyData :=
  match create_property_window lim hdr s with
  | .error e => .error e
  | .ok (wend, s1) =>
      match readVBytes (min lim wend) s1 with
      | .error e => .error e
      | .ok (v, s2) =>
          if s2.pos = wend then .ok (.stringData (buffer_to_str v), s2)
          else .error .windowNotExhausted

/-- Model: `IntPropertyData.unpack`: one signed 32-bit integer in the window. -/
def IntPropertyData.unpack (lim : Nat) (hdr : PropertyHeader) (s : RState) :
    DecRes PropertyData :=
  match create_property_window lim hdr s with
  | .error e => .error e
  | .ok (wend, s1) =>
      match readExact (min lim wend) 4 s1 with
      | .error e => .error e
      | .ok (c, s2) =>
          if s2.pos = wend then .ok (.intData (i32OfLE c), s2)
          else .error .windowNotExhausted

/-- Model: `Int64PropertyData.unpack`: one signed 64-bit integer in the window. -/
def Int64PropertyData.unpack (lim : Nat) (hdr : PropertyHeader)
    (s : RState) : DecRes PropertyData :=
  match create_property_window lim hdr s with
  | .error e => .error e
  | .ok (wend, s1) =>
      match readExact (min lim wend) 8 s1 with
      | .error e => .error e
      | .ok (c, s2) =>
          if s2.pos = wend then .ok (.int64Data (i64OfLE c), s2)
          else .error .windowNotExhausted

/-- Model: `FloatPropertyData.unpack`: one float32 in the window. -/
def FloatPropertyData.unpack (lim : Nat) (hdr : PropertyHeader)
    (s : RState) : DecRes PropertyData :=
  match create_property_window lim hdr s with
  | .error e => .error e
  | .ok (wend, s1) =>
      match readExact (min lim wend) 4 s1 with
      | .error e => .error e
      | .ok (c, s2) =>
          if s2.pos = wend then .ok (.floatData (leNat c), s2)
          else .error .windowNotExhausted

/-- Model: `ObjectPropertyData.unpack_element`: `2v` of level and path. -/
def ObjectPropertyData.unpack_element (lim : Nat) (s : RState) :
    DecRes PropertyData :=
  match readVBytes lim s with
  | .error e => .error e
  | .ok (level, s1) =>
      match readVBytes lim s1 with
      | .error e => .error e
      | .ok (path, s2) =>
          .ok (.objectData (buffer_to_str level) (buffer_to_str path), s2)

/-- Model: `ObjectPropertyData.unpack`: the element decode inside the window. -/
def ObjectPropertyData.unpack (lim : Nat) (hdr : PropertyHeader)
    (s : RState) : DecRes PropertyData :=
  match create_property_window lim hdr s with
  | .error e => .error e
  | .ok (wend, s1) =>
      match ObjectPropertyData.unpack_element (min lim wend) s1 with
      | .error e => .error e
      | .ok (r, s2) =>
          if s2.pos = wend then .ok (r, s2) else .error .windowNotExhausted

/-- Model: `ByteProperty.unpack`: a `v` sub-type name before the window; if the
sub-type is the sentinel the payload is one raw byte read from the
*stream*, otherwise a `v` string read from the window. -/
def ByteProperty.unpack (lim : Nat) (hdr : PropertyHeader) (s : RState) :
    DecRes PropertyData :=
  match readVBytes lim s with
  | .error e => .error e
  | .ok (subB, s1) =>
      match create_property_window lim hdr s1 with
      | .error e => .error e
      | .ok (wend, s2) =>
          if buffer_to_str subB = strBytes "None" then
            let r := readN lim 1 s2
            if r.2.pos = wend then
              .ok (.byteData (buffer_to_str subB) r.1, r.2)
            else .error .windowNotExhausted
          else
            match readVBytes (min lim wend) s2 with
            | .error e => .error e
            | .ok (w, s3) =>
                if s3.pos = wend then
                  .ok (.byteData (buffer_to_str subB) (buffer_to_str w), s3)
                else .error .windowNotExhausted

/-- Model: `BoolProperty.unpack`: declared size must be 0; two bytes follow the
header — the value and a must-be-zero flag — read outside any window. -/
def BoolProperty.unpack (lim : Nat) (hdr : PropertyHeader) (s : RState) :
    DecRes PropertyData :=
  if hdr.read_size = 0 then
    match readExact lim 2 s with
    | .error e => .error e
    | .ok (c, s') =>
        if (c.drop 1).headI = 0 then .ok (.boolData c.headI, s')
        else .error .boolFlag
  else .error .boolSize

/-- Model: `NameProperty.unpack`: a `v` string inside the window. -/
def NameProperty.unpack (lim : Nat) (hdr : PropertyHeader) (s : RState) :
    DecRes PropertyData :=
  match create_property_window lim hdr s with
  | .error e => .error e
  | .ok (wend, s1) =>
      match readVBytes (min lim wend) s1 with
      | .error e => .error e
      | .ok (v, s2) =>
          if s2.pos = wend then .ok (.nameData (buffer_to_str v), s2)
          else .error .windowNotExhausted

/-- Model: `EnumProperty.unpack`: a `v` sub-type name before the window, then a
`v` value name inside it. -/
def EnumProperty.unpack (lim : Nat) (hdr : PropertyHeader) (s : RState) :
    DecRes PropertyData :=
  match readVBytes lim s with
  | .error e => .error e
  | .ok (subB, s1) =>
      match create_property_window lim hdr s1 with
      | .error e => .error e
      | .ok (wend, s2) =>
          match readVBytes (min lim wend) s2 with
          | .error e => .error e
          | .ok (nameB, s3) =>
              if s3.pos = wend then
                .ok (.enumData (buffer_to_str subB) (buffer_to_str nameB), s3)
              else .error .windowNotExhausted

/-- Model: `InterfaceProperty.unpack_element`: `2v`. -/
def InterfaceProperty.unpack_element (lim : Nat) (s : RState) :
    DecRes PropertyData :=
  match readVBytes lim s with
  | .error e => .error e
  | .ok (a, s1) =>
      match readVBytes lim s1 with
      | .error e => .error e
      | .ok (b, s2) =>
          .ok (.interfaceData (buffer_to_str a) (buffer_to_str b), s2)

/-- Model: `InterfaceProperty.unpack`: `2v` inside the window. -/
def InterfaceProperty.unpack (lim : Nat) (hdr : PropertyHeader)
    (s : RState) : DecRes PropertyData :=
  match create_property_window lim hdr s with
  | .error e => .error e
  | .ok (wend, s1) =>
      match readVBytes (min lim wend) s1 with
      | .error e => .error e
      | .ok (a, s2) =>
          match readVBytes (min lim wend) s2 with
          | .error e => .error e
          | .ok (b, s3) =>
              if s3.pos = wend then
                .ok (.interfaceData (buffer_to_str a) (buffer_to_str b), s3)
              else .error .windowNotExhausted

/-- The whole-array decoders of `_unpack_array_map` (`ByteProperty` and
`BoolProperty` read `count` raw bytes without a length check;
`StructProperty.unpack_array` raises — `ArrayProperty.unpack` intercepts
the `Struct` tag before ever looking it up). -/
def runArrayBulk (lim count : Nat) (pt : PropertyType) (s : RState) :
    DecRes ArrayValues :=
  match pt with
  | .Int =>
      match IntPropertyData.unpack_array lim count s with
      | .error e => .error e
      | .ok (vs, s') => .ok (.ints vs, s')
  | .Int64 =>
      match Int64PropertyData.unpack_array lim count s with
      | .error e => .error e
      | .ok (vs, s') => .ok (.ints vs, s')
  | .Float =>
      match FloatPropertyData.unpack_array lim count s with
      | .error e => .error e
      | .ok (vs, s') => .ok (.floats vs, s')
  | .Byte =>
      let r := readN lim count s
      .ok (.raw r.1, r.2)
  | .Bool =>
      let r := readN lim count s
      .ok (.raw r.1, r.2)
  | _ => .error .arrayTypeUnsupported

/-! ### The structure registry (satisfactory/structures.py, lines 10-240)

`Vector2/3/4.unpack`, `Color32.unpack` were modelled above; the remaining
fixed-layout unpackers follow.  Each returns its structure with
`structure_type = None`; `Structure.unpack_as_type` assigns the name
afterwards (the source sets the attribute even on classes that do not
declare the field). -/

/-- Model: `StructIO.str_null_terminated_default`.  The library default is
`False`; `satisfactory/main.py` flips the class attribute to `True` when
imported.  No claim below depends on the flag. -/
def str_null_terminated_default : Bool := false

/-- Model: `StructIO.unpack_len_encoded_str`: unsigned 32-bit length, then that
many bytes (not length-checked); with null-termination on, a non-empty
string must end in NUL and the NUL (or last byte) is dropped. -/
def unpack_len_encoded_str (nullTerm : Bool) (lim : Nat) (s : RState) :
    DecRes (List Nat) :=
  match readU32 lim s with
  | .error e => .error e
  | .ok (count, s1) =>
      let r := readN lim count s1
      if nullTerm then
        if r.1.length > 0 ∧ r.1.getLast? ≠ some 0 then .error .strTermMissing
        else .ok (r.1.dropLast, r.2)
      else .ok (r.1, r.2)

/-- Model: `ObjectReference`: two length-encoded strings. -/
structure ObjectReference where
  level : List Nat
  path : List Nat
deriving DecidableEq, Repr

/-- Model: `ObjectReference.unpack`. -/
def ObjectReference.unpack (lim : Nat) (s : RState) :
    DecRes ObjectReference :=
  match unpack_len_encoded_str str_null_terminated_default lim s with
  | .error e => .error e
  | .ok (level, s1) =>
      match unpack_len_encoded_str str_null_terminated_default lim s1 with
      | .error e => .error e
      | .ok (path, s2) => .ok (⟨level, path⟩, s2)

/-- Model: `Vector2.unpack` wrapped as a registry entry. -/
def Vector2.unpackStruct (lim : Nat) (s : RState) : DecRes StructureVal :=
  match Vector2.unpack lim s with
  | .error e => .error e
  | .ok (v, s') => .ok (.mk none (.vec2 v), s')

/-- Model: `Vector3.unpack` wrapped as a registry entry (also `Rotator`). -/
def Vector3.unpackStruct (lim : Nat) (s : RState) : DecRes StructureVal :=
  match Vector3.unpack lim s with
  | .error e => .error e
  | .ok (v, s') => .ok (.mk none (.vec3 v), s')

/-- Model: `Vector4.unpack` wrapped as a registry entry (`Quat`). -/
def Vector4.unpackStruct (lim : Nat) (s : RState) : DecRes StructureVal :=
  match Vector4.unpack lim s with
  | .error e => .error e
  | .ok (v, s') => .ok (.mk none (.vec4 v), s')

/-- Model: `Color32.unpack` wrapped as a registry entry (the `"Color"` key). -/
def Color32.unpackStruct (lim : Nat) (s : RState) : DecRes StructureVal :=
  match Color32.unpack lim s with
  | .error e => .error e
  | .ok (c, s') => .ok (.mk none (.color32 c), s')

/-- Model: `Color.unpack` (`"LinearColor"`): `reader.unpack("4f")`. -/
def Color.unpackStruct (lim : Nat) (s : RState) : DecRes StructureVal :=
  match readExact lim 16 s with
  | .error e => .error e
  | .ok (c, s') =>
      .ok (.mk none (.colorFloat (leNat (c.take 4)) (leNat ((c.drop 4).take 4))
        (leNat ((c.drop 8).take 4)) (leNat ((c.drop 12).take 4))), s')

/-- Model: `Box.unpack`: two `Vector3`s and one unchecked byte. -/
def Box.unpack (lim : Nat) (s : RState) : DecRes StructureVal :=
  match Vector3.unpack lim s with
  | .error e => .error e
  | .ok (mn, s1) =>
      match Vector3.unpack lim s1 with
      | .error e => .error e
      | .ok (mx, s2) =>
          let r := readN lim 1 s2
          .ok (.mk none (.box mn mx r.1), r.2)

/-- Model: `FluidBox.unpack`: one float32. -/
def FluidBox.unpack (lim : Nat) (s : RState) : DecRes StructureVal :=
  match readExact lim 4 s with
  | .error e => .error e
  | .ok (c, s') => .ok (.mk none (.fluidBox (leNat c)), s')

/-- Model: `GuidStructure.unpack`: `stream.read(16)` (not length-checked). -/
def GuidStructure.unpack (lim : Nat) (s : RState) : DecRes StructureVal :=
  let r := readN lim 16 s
  .ok (.mk none (.guid r.1), r.2)

/-- Model: `InventoryItem.unpack`: a signed 32-bit integer and three
length-encoded strings. -/
def InventoryItem.unpack (lim : Nat) (s : RState) : DecRes StructureVal :=
  match readExact lim 4 s with
  | .error e => .error e
  | .ok (c, s1) =>
      match unpack_len_encoded_str str_null_terminated_default lim s1 with
      | .error e => .error e
      | .ok (item_type, s2) =>
          match unpack_len_encoded_str str_null_terminated_default lim s2 with
          | .error e => .error e
          | .ok (b, s3) =>
              match unpack_len_encoded_str str_null_terminated_default lim
                  s3 with
              | .error e => .error e
              | .ok (cc, s4) =>
                  .ok (.mk none (.inventoryItem (i32OfLE c) item_type b cc),
                    s4)

/-- Model: `_unpack_map` of `satisfactory/structures.py`: `none` = name absent
(dynamic fallback), `some none` = present but mapped to Python `None`. -/
def structRegistry (name : List Nat) :
    Option (Option (Nat → RState → DecRes StructureVal)) :=
  if name = strBytes "Box" then some (some Box.unpack)
  else if name = strBytes "Color" then some (some Color32.unpackStruct)
  else if name = strBytes "LinearColor" then some (some Color.unpackStruct)
  else if name = strBytes "Quat" then some (some Vector4.unpackStruct)
  else if name = strBytes "Vector" then some (some Vector3.unpackStruct)
  else if name = strBytes "Vector2D" then some (some Vector2.unpackStruct)
  else if name = strBytes "Rotator" then some (some Vector3.unpackStruct)
  else if name = strBytes "InventoryItem" then some (some InventoryItem.unpack)
  else if name = strBytes "FINNetworkTrace" then some none
  else if name = strBytes "FluidBox" then some (some FluidBox.unpack)
  else if name = strBytes "RailroadTrackPosition" then some none
  else if name = strBytes "Guid" then some (some GuidStructure.unpack)
  else none

/-! The mutually recursive part of the engine: full-property decode,
the recursive payload decoders, bare-element decode, the property-list
loop, dynamic structures and registry dispatch.  Every entry point spends
one unit of `fuel`; `Err.fuelOut` cannot be reached when the fuel exceeds
the static call depth of the input. -/

mutual

/-- Model: `Property.unpack`: decode the header (`none` = sentinel propagated to
the caller), look up the payload decoder in `_unpack_map`, fail with
`NotImplementedError` when there is none, otherwise run it. -/
def Property.unpack : Nat → Nat → RState → DecRes (Option Property)
  | 0, _, _ => .error .fuelOut
  | fuel + 1, lim, s =>
      match PropertyHeader.unpack lim s with
      | .error e => .error e
      | .ok (none, s') => .ok (none, s')
      | .ok (some header, s') =>
          if hasUnpacker header.property_type then
            match unpackPropertyData fuel lim header.property_type header s' with
            | .error e => .error e
            | .ok (data, s'') => .ok (some (.mk header data), s'')
          else .error .unknownPropertyType

/-- Dispatch over `property2class` (the keys of `_unpack_map`).  The
`Text`/`Set`/`Int8` arms are unreachable from `Property.unpack`, which
fails first; they mirror the absent dictionary entries. -/
def unpackPropertyData : Nat → Nat → PropertyType → PropertyHeader →
    RState → DecRes PropertyData
  | 0, _, _, _, _ => .error .fuelOut
  | fuel + 1, lim, pt, hdr, s =>
      match pt with
      | .Struct => StructProperty.unpack fuel lim hdr s
      | .Bool => BoolProperty.unpack lim hdr s
      | .String => StringPropertyData.unpack lim hdr s
      | .Float => FloatPropertyData.unpack lim hdr s
      | .Int64 => Int64PropertyData.unpack lim hdr s
      | .Int => IntPropertyData.unpack lim hdr s
      | .Enum => EnumProperty.unpack lim hdr s
      | .Byte => ByteProperty.unpack lim hdr s
      | .Map => MapProperty.unpack fuel lim hdr s
      | .Object => ObjectPropertyData.unpack lim hdr s
      | .Array => ArrayProperty.unpack fuel lim hdr s
      | .Name => NameProperty.unpack lim hdr s
      | .Interface => InterfaceProperty.unpack lim hdr s
      | .Text => .error .unknownPropertyType
      | .Set => .error .unknownPropertyType
      | .Int8 => .error .unknownPropertyType

/-- Model: `StructProperty.unpack`: `v4I` (struct-type name and the opaque
`abcd`), then the structure payload inside the window, dispatched through
the registry. -/
def StructProperty.unpack : Nat → Nat → PropertyHeader → RState →
    DecRes PropertyData
  | 0, _, _, _ => .error .fuelOut
  | fuel + 1, lim, hdr, s =>
      match readVBytes lim s with
      | .error e => .error e
      | .ok (subB, s1) =>
          match readU32 lim s1 with
          | .error e => .error e
          | .ok (a, s2) =>
              match readU32 lim s2 with
              | .error e => .error e
              | .ok (b, s3) =>
                  match readU32 lim s3 with
                  | .error e => .error e
                  | .ok (c, s4) =>
                      match readU32 lim s4 with
                      | .error e => .error e
                      | .ok (d, s5) =>
                          match create_property_window lim hdr s5 with
                          | .error e => .error e
                          | .ok (wend, s6) =>
                              match Structure.unpack_as_type fuel
                                  (min lim wend) (buffer_to_str subB) s6 with
                              | .error e => .error e
                              | .ok (st, s7) =>
                                  if s7.pos = wend then
                                    .ok (.structData (a, b, c, d) st, s7)
                                  else .error .windowNotExhausted

/-- Model: `ArrayProperty.unpack`: element-type tag, window, element count; the
`Struct` tag goes to the struct-array special case, otherwise a registered
whole-array decoder, otherwise per-element decode, otherwise
`NotImplementedError`. -/
def ArrayProperty.unpack : Nat → Nat → PropertyHeader → RState →
    DecRes PropertyData
  | 0, _, _, _ => .error .fuelOut
  | fuel + 1, lim, hdr, s =>
      match readVBytes lim s with
      | .error e => .error e
      | .ok (atB, s1) =>
          match PropertyType.ofBytes (buffer_to_str atB) with
          | none => .error .badPropertyType
          | some at_ =>
              match create_property_window lim hdr s1 with
              | .error e => .error e
              | .ok (wend, s2) =>
                  match readU32 (min lim wend) s2 with
                  | .error e => .error e
                  | .ok (count, s3) =>
                      if at_ = .Struct then
                        match StructArrayProperty.unpack_struct_array fuel
                            (min lim wend) count at_ s3 with
                        | .error e => .error e
                        | .ok (r, s4) =>
                            if s4.pos = wend then .ok (r, s4)
                            else .error .windowNotExhausted
                      else if arrayBulkExists at_ then
                        match runArrayBulk (min lim wend) count at_ s3 with
                        | .error e => .error e
                        | .ok (vals, s4) =>
                            if s4.pos = wend then
                              .ok (.arrayData at_ vals, s4)
                            else .error .windowNotExhausted
                      else if elemUnpackerExists at_ then
                        match elemsLoop fuel (min lim wend) at_ count s3 with
                        | .error e => .error e
                        | .ok (vals, s4) =>
                            if s4.pos = wend then
                              .ok (.arrayData at_ (.props vals), s4)
                            else .error .windowNotExhausted
                      else .error .arrayTypeUnsupported

/-- Model: `StructArrayProperty.unpack_struct_array`: one full nested header
(must not be the sentinel, must be `Struct`), one `v4I` prefix, then
`count` bare struct payloads inside the nested window. -/
def StructArrayProperty.unpack_struct_array : Nat → Nat → Nat →
    PropertyType → RState → DecRes PropertyData
  | 0, _, _, _, _ => .error .fuelOut
  | fuel + 1, lim, count, at_, s =>
      match PropertyHeader.unpack lim s with
      | .error e => .error e
      | .ok (none, _) => .error .noneProperty
      | .ok (some hdr, s1) =>
          if hdr.name = strBytes "None" then .error .structArrayHeader
          else if hdr.property_type ≠ .Struct then .error .structArrayHeader
          else
            match readVBytes lim s1 with
            | .error e => .error e
            | .ok (stB, s2) =>
                match readU32 lim s2 with
                | .error e => .error e
                | .ok (a, s3) =>
                    match readU32 lim s3 with
                    | .error e => .error e
                    | .ok (b, s4) =>
                        match readU32 lim s4 with
                        | .error e => .error e
                        | .ok (c, s5) =>
                            match readU32 lim s5 with
                            | .error e => .error e
                            | .ok (d, s6) =>
                                match create_property_window lim hdr s6 with
                                | .error e => .error e
                                | .ok (wend, s7) =>
                                    match structsLoop fuel (min lim wend)
                                        (buffer_to_str stB) count s7 with
                                    | .error e => .error e
                                    | .ok (items, s8) =>
                                        if s8.pos = wend then
                                          .ok (.structArrayData at_ items hdr
                                            (a, b, c, d)
                                            (buffer_to_str stB), s8)
                                        else .error .windowNotExhausted

/-- Model: `count` iterations of `Structure.unpack_as_type` (the loop body of the
struct-array decoder). -/
def structsLoop : Nat → Nat → List Nat → Nat → RState →
    DecRes (List StructureVal)
  | 0, _, _, _, _ => .error .fuelOut
  | _ + 1, _, _, 0, s => .ok ([], s)
  | fuel + 1, lim, st, count + 1, s =>
      match Structure.unpack_as_type fuel lim st s with
      | .error e => .error e
      | .ok (v, s') =>
          match structsLoop fuel lim st count s' with
          | .error e => .error e
          | .ok (vs, s'') => .ok (v :: vs, s'')

/-- Model: `MapProperty.unpack`: key/value type tags, window, a must-be-zero
field and the entry count, then `count` key/value pairs decoded via the
bare-element decoders — read from the *stream*, as the source does. -/
def MapProperty.unpack : Nat → Nat → PropertyHeader → RState →
    DecRes PropertyData
  | 0, _, _, _ => .error .fuelOut
  | fuel + 1, lim, hdr, s =>
      match readVBytes lim s with
      | .error e => .error e
      | .ok (ktB, s1) =>
          match readVBytes lim s1 with
          | .error e => .error e
          | .ok (vtB, s2) =>
              match create_property_window lim hdr s2 with
              | .error e => .error e
              | .ok (wend, s3) =>
                  match readU32 (min lim wend) s3 with
                  | .error e => .error e
                  | .ok (unk, s4) =>
                      match readU32 (min lim wend) s4 with
                      | .error e => .error e
                      | .ok (count, s5) =>
                          if unk = 0 then
                            match PropertyType.ofBytes (buffer_to_str ktB) with
                            | none => .error .badPropertyType
                            | some kt =>
                                match PropertyType.ofBytes
                                    (buffer_to_str vtB) with
                                | none => .error .badPropertyType
                                | some vt =>
                                    if elemUnpackerExists kt then
                                      if elemUnpackerExists vt then
                                        match mapEntriesLoop fuel lim kt vt
                                            count s5 with
                                        | .error e => .error e
                                        | .ok (entries, s6) =>
                                            if s6.pos = wend then
                                              .ok (.mapData kt vt entries, s6)
                                            else .error .windowNotExhausted
                                      else .error .keyError
                                    else .error .keyError
                          else .error .zeroCheck

/-- Model: `count` key/value pairs via the bare-element decoders. -/
def mapEntriesLoop : Nat → Nat → PropertyType → PropertyType → Nat →
    RState → DecRes (List (PropertyData × PropertyData))
  | 0, _, _, _, _, _ => .error .fuelOut
  | _ + 1, _, _, _, 0, s => .ok ([], s)
  | fuel + 1, lim, kt, vt, count + 1, s =>
      match unpackElement fuel lim kt s with
      | .error e => .error e
      | .ok (k, s1) =>
          match unpackElement fuel lim vt s1 with
          | .error e => .error e
          | .ok (v, s2) =>
              match mapEntriesLoop fuel lim kt vt count s2 with
              | .error e => .error e
              | .ok (rest, s3) => .ok ((k, v) :: rest, s3)

/-- Model: `count` bare elements of one type (the per-element array loop). -/
def elemsLoop : Nat → Nat → PropertyType → Nat → RState →
    DecRes (List PropertyData)
  | 0, _, _, _, _ => .error .fuelOut
  | _ + 1, _, _, 0, s => .ok ([], s)
  | fuel + 1, lim, pt, count + 1, s =>
      match unpackElement fuel lim pt s with
      | .error e => .error e
      | .ok (v, s') =>
          match elemsLoop fuel lim pt count s' with
          | .error e => .error e
          | .ok (vs, s'') => .ok (v :: vs, s'')

/-- Model: `_unpack_element_map` dispatch: the bare-element decoder of each type
(`Byte`'s raises `NotImplementedError`; `Bool`'s reads one unchecked byte;
`Struct`'s is `DynamicStructure.unpack`; types without an entry are a
`KeyError`). -/
def unpackElement : Nat → Nat → PropertyType → RState → DecRes PropertyData
  | 0, _, _, _ => .error .fuelOut
  | fuel + 1, lim, pt, s =>
      match pt with
      | .Int =>
          match IntPropertyData.unpack_element lim s with
          | .error e => .error e
          | .ok (v, s') => .ok (.intData v, s')
      | .Int64 =>
          match Int64PropertyData.unpack_element lim s with
          | .error e => .error e
          | .ok (v, s') => .ok (.int64Data v, s')
      | .Float =>
          match FloatPropertyData.unpack_element lim s with
          | .error e => .error e
          | .ok (v, s') => .ok (.floatData v, s')
      | .Object => ObjectPropertyData.unpack_element lim s
      | .Interface => InterfaceProperty.unpack_element lim s
      | .Bool =>
          let r := readN lim 1 s
          .ok (.rawBytes r.1, r.2)
      | .Byte => .error .byteElemUnsupported
      | .Struct =>
          match DynamicStructure.unpack fuel lim s with
          | .error e => .error e
          | .ok (st, s') => .ok (.elemStructure st, s')
      | _ => .error .keyError

/-- Model: `DynamicStructure.unpack`: a property list terminated by the sentinel
(no trailing zero field at this level). -/
def DynamicStructure.unpack : Nat → Nat → RState → DecRes StructureVal
  | 0, _, _ => .error .fuelOut
  | fuel + 1, lim, s =>
      match propListLoop fuel lim s with
      | .error e => .error e
      | .ok (props, s') => .ok (.mk none (.dynamic props), s')

/-- The `while True: try Property.unpack / except NonePropertyError: break`
loop shared by `WorldObjectProperties.unpack` and
`DynamicStructure.unpack`. -/
def propListLoop : Nat → Nat → RState → DecRes (List Property)
  | 0, _, _ => .error .fuelOut
  | fuel + 1, lim, s =>
      match Property.unpack fuel lim s with
      | .error e => .error e
      | .ok (none, s') => .ok ([], s')
      | .ok (some p, s') =>
          match propListLoop fuel lim s' with
          | .error e => .error e
          | .ok (ps, s'') => .ok (p :: ps, s'')

/-- Model: `Structure.unpack_as_type`: assert the name has no trailing NUL
(failing too on an empty name, where `type[-1]` raises), then
`_unpack_map.get(type, DynamicStructure.unpack)`; a name present in the
table but mapped to `None` makes `unpacker(stream)` a `TypeError`.  The
decoded structure gets `structure_type` assigned. -/
def Structure.unpack_as_type : Nat → Nat → List Nat → RState →
    DecRes StructureVal
  | 0, _, _, _ => .error .fuelOut
  | fuel + 1, lim, type_, s =>
      if type_ = [] then .error .typeAssert
      else if type_.getLast? = some 0 then .error .typeAssert
      else
        match structRegistry type_ with
        | some none => .error .nullUnpacker
        | some (some f) =>
            match f lim s with
            | .error e => .error e
            | .ok (st, s') => .ok (st.withType type_, s')
        | none =>
            match DynamicStructure.unpack fuel lim s with
            | .error e => .error e
            | .ok (st, s') => .ok (st.withType type_, s')

end

/-- Model: `WorldObjectProperties.unpack`: slice a window of `size` bytes, run the
property-list loop, then read the trailing must-be-zero 32-bit field.  The
source deliberately does not check that the window is exhausted (its
`end_of_stream` assert is commented out because of excess data). -/
def WorldObjectProperties.unpack (fuel lim size : Nat) (s : RState) :
    DecRes (List Property) :=
  let wend := s.pos + size
  match propListLoop fuel (min lim wend) s with
  | .error e => .error e
  | .ok (props, s') =>
      match readU32 (min lim wend) s' with
      | .error e => .error e
      | .ok (z, s'') =>
          if z = 0 then .ok (props, s'') else .error .zeroCheck

/-! ## World objects and the save body (satisfactory/save.py, lines
51-219) -/

/-- Model: `WorldObjectHeader`: `VStruct("I3v")`.  The `v` fields are stored as
the raw byte blobs `unpack_stream` returns (the source applies no string
conversion here). -/
structure WorldObjectHeader where
  type_ : Nat
  type_path : List Nat
  root_object : List Nat
  instance_name : List Nat
deriving DecidableEq, Repr

/-- Model: `WorldObjectHeader.unpack`. -/
def WorldObjectHeader.unpack (lim : Nat) (s : RState) :
    DecRes WorldObjectHeader :=
  match readU32 lim s with
  | .error e => .error e
  | .ok (t, s1) =>
      match readVBytes lim s1 with
      | .error e => .error e
      | .ok (tp, s2) =>
          match readVBytes lim s2 with
          | .error e => .error e
          | .ok (ro, s3) =>
              match readVBytes lim s3 with
              | .error e => .error e
              | .ok (inst, s4) => .ok (⟨t, tp, ro, inst⟩, s4)

/-- The two `WorldObject` variants; fields that the deferred
`read_properties` pass fills in start out as `none` (Python `None`). -/
inductive WorldObject where
  | strObj (header : WorldObjectHeader) (properties : Option (List Property))
      (data : List Nat)
  | dataObj (header : WorldObjectHeader) (properties : Option (List Property))
      (need_transform : Nat) (rotation : Vector4) (position : Vector3)
      (scale : Vector3) (placed_in_level : Nat)
      (parent_object_root : Option (List Nat))
      (parent_object_name : Option (List Nat))
      (components : Option (List ObjectReference))
      (excess_data : Option (List Nat))

/-- Model: `WorldObject.unpack`: header, then the variant-specific fixed fields
(type 0 = `StrWorldObject`, type 1 = `DataWorldObject` with
`VStruct("I4f3f3fI")`, anything else a `ValueError`). -/
def WorldObject.unpack (lim : Nat) (s : RState) : DecRes WorldObject :=
  match WorldObjectHeader.unpack lim s with
  | .error e => .error e
  | .ok (header, s1) =>
      if header.type_ = 0 then
        match readVBytes lim s1 with
        | .error e => .error e
        | .ok (d, s2) => .ok (.strObj header none d, s2)
      else if header.type_ = 1 then
        match readExact lim 48 s1 with
        | .error e => .error e
        | .ok (c, s2) =>
            .ok (.dataObj header none (leNat (c.take 4))
              ⟨leNat ((c.drop 4).take 4), leNat ((c.drop 8).take 4),
               leNat ((c.drop 12).take 4), leNat ((c.drop 16).take 4)⟩
              ⟨leNat ((c.drop 20).take 4), leNat ((c.drop 24).take 4),
               leNat ((c.drop 28).take 4)⟩
              ⟨leNat ((c.drop 32).take 4), leNat ((c.drop 36).take 4),
               leNat ((c.drop 40).take 4)⟩
              (leNat ((c.drop 44).take 4)) none none none none, s2)
      else .error .badObjectType

/-- Model: `count` components, each an `ObjectReference`. -/
def componentsLoop (lim : Nat) : Nat → RState → DecRes (List ObjectReference)
  | 0, s => .ok ([], s)
  | n + 1, s =>
      match ObjectReference.unpack lim s with
      | .error e => .error e
      | .ok (c, s') =>
          match componentsLoop lim n s' with
          | .error e => .error e
          | .ok (cs, s'') => .ok (c :: cs, s'')

/-- Model: `DataWorldObject.read_properties`: size field, a window over the whole
property block, the `2vI` parent/component prefix and the components (read
from the stream), then the property list in the rest of the window; any
bytes still left in the window are read back and recorded as
`excess_data` whenever present — the source's allow-list of type paths is
commented out, so no type-path check is made — and the final
`assert end_of_stream(window)` only re-checks the position reached the
window end. -/
def DataWorldObject.read_properties (fuel lim : Nat)
    (hdr : WorldObjectHeader) (_props0 : Option (List Property))
    (nt : Nat) (rot : Vector4) (pos : Vector3) (scale : Vector3)
    (placed : Nat) (s : RState) : DecRes WorldObject :=
  match readU32 lim s with
  | .error e => .error e
  | .ok (size, s1) =>
      let wstart := s1.pos
      let wend := wstart + size
      match readVBytes lim s1 with
      | .error e => .error e
      | .ok (rootB, s2) =>
          match readVBytes lim s2 with
          | .error e => .error e
          | .ok (nameB, s3) =>
              match readU32 lim s3 with
              | .error e => .error e
              | .ok (compCount, s4) =>
                  match componentsLoop lim compCount s4 with
                  | .error e => .error e
                  | .ok (comps, s5) =>
                      let size2 : Int :=
                        (size : Int) - ((s5.pos : Int) - (wstart : Int))
                      if size2 < 0 then .error .windowInvalid
                      else
                        match WorldObjectProperties.unpack fuel
                            (min lim wend) size2.toNat s5 with
                        | .error e => .error e
                        | .ok (props, s6) =>
                            let r := readN lim (wend - s6.pos) s6
                            let excess :=
                              if r.1.length > 0 then some r.1 else none
                            if r.2.pos = wend then
                              .ok (.dataObj hdr (some props) nt rot pos scale
                                placed (some (buffer_to_str rootB))
                                (some (buffer_to_str nameB)) (some comps)
                                excess, r.2)
                            else .error .objectWindowShort

/-- Model: `WorldObject.read_properties`: the base-class version (used by
`StrWorldObject`) reads the size and hands the stream straight to
`WorldObjectProperties.unpack`; `DataWorldObject` overrides it. -/
def WorldObject.read_properties (fuel lim : Nat) :
    WorldObject → RState → DecRes WorldObject
  | .strObj hdr _ d, s =>
      match readU32 lim s with
      | .error e => .error e
      | .ok (size, s1) =>
          match WorldObjectProperties.unpack fuel lim size s1 with
          | .error e => .error e
          | .ok (props, s2) => .ok (.strObj hdr (some props) d, s2)
  | .dataObj hdr props0 nt rot pos scale placed _ _ _ _, s =>
      DataWorldObject.read_properties fuel lim hdr props0 nt rot pos scale
        placed s

/-- Model: `WorldCollectedObject`: `VStruct("2v")`, stored raw. -/
structure WorldCollectedObject where
  type_ : List Nat
  value : List Nat
deriving DecidableEq, Repr

/-- Model: `WorldCollectedObject.unpack`. -/
def WorldCollectedObject.unpack (lim : Nat) (s : RState) :
    DecRes WorldCollectedObject :=
  match readVBytes lim s with
  | .error e => .error e
  | .ok (t, s1) =>
      match readVBytes lim s1 with
      | .error e => .error e
      | .ok (v, s2) => .ok (⟨t, v⟩, s2)

/-- Model: `count` world-object headers (the first pass). -/
def worldObjectsLoop (lim : Nat) : Nat → RState → DecRes (List WorldObject)
  | 0, s => .ok ([], s)
  | n + 1, s =>
      match WorldObject.unpack lim s with
      | .error e => .error e
      | .ok (o, s') =>
          match worldObjectsLoop lim n s' with
          | .error e => .error e
          | .ok (os, s'') => .ok (o :: os, s'')

/-- The deferred second pass: `read_properties` over every object in
order. -/
def readPropertiesLoop (fuel lim : Nat) :
    List WorldObject → RState → DecRes (List WorldObject)
  | [], s => .ok ([], s)
  | o :: os, s =>
      match WorldObject.read_properties fuel lim o s with
      | .error e => .error e
      | .ok (o', s') =>
          match readPropertiesLoop fuel lim os s' with
          | .error e => .error e
          | .ok (os', s'') => .ok (o' :: os', s'')

/-- Model: `count` collected objects. -/
def collectedLoop (lim : Nat) : Nat → RState →
    DecRes (List WorldCollectedObject)
  | 0, s => .ok ([], s)
  | n + 1, s =>
      match WorldCollectedObject.unpack lim s with
      | .error e => .error e
      | .ok (c, s') =>
          match collectedLoop lim n s' with
          | .error e => .error e
          | .ok (cs, s'') => .ok (c :: cs, s'')

/-- Model: `SaveBody`. -/
structure SaveBody where
  data_size : Nat
  world_objects : List WorldObject
  world_collected_objects : List WorldCollectedObject

/-- Model: `SaveBody.unpack`: read `data_size` and immediately verify
`before + data_size == after` (the distance to end-of-stream) before
anything else; then the object-header pass, the matching second count, the
deferred property pass, the collected-object list, and the final
exhaustion assert. -/
def SaveBody.unpack (fuel : Nat) (s : RState) : DecRes SaveBody :=
  let lim := s.data.length
  match readU32 lim s with
  | .error e => .error e
  | .ok (data_size, s1) =>
      if s1.pos + data_size = s1.data.length then
        match readU32 lim s1 with
        | .error e => .error e
        | .ok (count, s2) =>
            match worldObjectsLoop lim count s2 with
            | .error e => .error e
            | .ok (objs, s3) =>
                match readU32 lim s3 with
                | .error e => .error e
                | .ok (count2, s4) =>
                    if count2 = count then
                      match readPropertiesLoop fuel lim objs s4 with
                      | .error e => .error e
                      | .ok (objs', s5) =>
                          match readU32 lim s5 with
                          | .error e => .error e
                          | .ok (ccount, s6) =>
                              match collectedLoop lim ccount s6 with
                              | .error e => .error e
                              | .ok (cs, s7) =>
                                  if s7.pos = s7.data.length then
                                    .ok (⟨data_size, objs', cs⟩, s7)
                                  else .error .trailingData
                    else .error .countMismatch
      else .error .bodySizeMismatch

/-! ## Concrete inputs used by the theorems below -/

/-- The minimal synthetic save body: declared size 12, zero objects, the
matching second count, zero collected objects. -/
def minimalBody : List Nat :=
  leBytes 4 12 ++ (leBytes 4 0 ++ (leBytes 4 0 ++ leBytes 4 0))

/-- Twelve zero bytes (the payload of a body whose declared size should be
12). -/
def twelveZeros : List Nat := [0, 0, 0, 0, 0, 0, 0, 0, 0, 0, 0, 0]

/-- A full property whose header carries the `TextProperty` tag: name
`"A"`, the tag, declared size 0, index 0. -/
def textPropBytes : List Nat :=
  vEnc (strBytes "A") ++
    (vEnc (strBytes "TextProperty") ++ (leBytes 4 0 ++ leBytes 4 0))

/-- A `DataWorldObject` property block whose property list is just the
sentinel and the trailing zero, followed by `tb` trailing bytes inside the
declared window: size field, empty parent strings, zero components,
sentinel, trailing zero, excess bytes. -/
def objectBlockWithExcess (tb : List Nat) : List Nat :=
  leBytes 4 (25 + tb.length) ++ (vEnc [] ++ (vEnc [] ++ (leBytes 4 0 ++
    (vEnc (strBytes "None\x00") ++ (leBytes 4 0 ++ tb)))))

/-- A world-object header with a caller-chosen type path (the path plays no
role in `read_properties`). -/
def hdrWithPath (tp : List Nat) : WorldObjectHeader :=
  ⟨1, tp, [], []⟩

/-! # Theorems -/

theorem leBytes_length (w v : Nat) : (leBytes w v).length = w := by
  induction w generalizing v with
  | zero => rfl
  | succ w ih => simp [leBytes, ih]

theorem leNat_leBytes (w v : Nat) : leNat (leBytes w v) = v % 256 ^ w := by
  induction w generalizing v with
  | zero => simp [leBytes, leNat, Nat.mod_one]
  | succ w ih =>
      simp only [leBytes, leNat, ih]
      rw [pow_succ, mul_comm (256 ^ w) 256, Nat.mod_mul]

theorem vEnc_length (payload : List Nat) :
    (vEnc payload).length = 4 + payload.length := by
  simp [vEnc, leBytes_length]

/-- Evaluation lemma: an exact read at position `p` when the rest of the
buffer starts with the `n` wanted bytes. -/
theorem readExact_eq (lim n p : Nat) (data pre post : List Nat)
    (hd : data.drop p = pre ++ post) (hn : pre.length = n)
    (hl : p + n ≤ lim) :
    readExact lim n ⟨data, p⟩ = .ok (pre, ⟨data, p + n⟩) := by
  have hmin : min n (lim - p) = n := by omega
  simp [readExact, readN, hd, hmin, List.take_left' hn, hn]

/-- Evaluation lemma for `readU32`. -/
theorem readU32_eq (lim p v : Nat) (data post : List Nat)
    (hd : data.drop p = leBytes 4 v ++ post) (hv : v < 2 ^ 32)
    (hl : p + 4 ≤ lim) :
    readU32 lim ⟨data, p⟩ = .ok (v, ⟨data, p + 4⟩) := by
  have h1 := readExact_eq lim 4 p data (leBytes 4 v) post hd
    (leBytes_length 4 v) hl
  have hv4 : v % 256 ^ 4 = v := Nat.mod_eq_of_lt (by norm_num at hv ⊢; omega)
  simp only [readU32, h1, leNat_leBytes, hv4]

/-- Evaluation lemma for one `v` token. -/
theorem readVBytes_eq (lim p k : Nat) (data payload post : List Nat)
    (hd : data.drop p = leBytes 4 k ++ (payload ++ post))
    (hk : payload.length = k) (hks : k < 2 ^ 31) (hl : p + 4 + k ≤ lim) :
    readVBytes lim ⟨data, p⟩ = .ok (payload, ⟨data, p + 4 + k⟩) := by
  have h1 := readExact_eq lim 4 p data (leBytes 4 k) (payload ++ post) hd
    (leBytes_length 4 k) (by omega)
  have hd2 : data.drop (p + 4) = payload ++ post := by
    rw [← List.drop_drop, hd, List.drop_left' (leBytes_length 4 k)]
  have h2 := readExact_eq lim k (p + 4) data payload post hd2 hk (by omega)
  have hk4 : k % 256 ^ 4 = k := Nat.mod_eq_of_lt (by norm_num; omega)
  have hneg : ¬ (2 ^ 31 ≤ k) := by omega
  simp only [readVBytes, h1, leNat_leBytes, hk4, hneg, if_false, h2]

/-- Evaluation lemma: the property-list loop on a stream whose next bytes
are the length-prefixed sentinel name consumes exactly the sentinel and
yields the empty list. -/
theorem propListLoop_sentinel (fuel lim p : Nat) (data rest : List Nat)
    (hd : data.drop p = vEnc (strBytes "None\x00") ++ rest)
    (hl : p + 9 ≤ lim) :
    propListLoop (fuel + 2) lim ⟨data, p⟩ = .ok ([], ⟨data, p + 9⟩) := by
  have hv : readVBytes lim ⟨data, p⟩ =
      .ok (strBytes "None\x00", ⟨data, p + 9⟩) :=
    readVBytes_eq lim p 5 data (strBytes "None\x00") rest
      (by rw [hd]; rfl) (by decide) (by decide) (by omega)
  have hh : PropertyHeader.unpack lim ⟨data, p⟩ =
      .ok (none, ⟨data, p + 9⟩) := by
    simp only [PropertyHeader.unpack, hv]
    rw [if_pos (by decide)]
  rw [show fuel + 2 = fuel + 1 + 1 from rfl]
  simp only [propListLoop, Property.unpack, hh]

/-- Evaluation lemma: a dynamic structure decoded from a sentinel-only
stream is the empty property list. -/
theorem dynamicUnpack_sentinel (fuel lim p : Nat) (data rest : List Nat)
    (hd : data.drop p = vEnc (strBytes "None\x00") ++ rest)
    (hl : p + 9 ≤ lim) :
    DynamicStructure.unpack (fuel + 3) lim ⟨data, p⟩ =
      .ok (.mk none (.dynamic []), ⟨data, p + 9⟩) := by
  rw [show fuel + 3 = fuel + 2 + 1 from rfl]
  simp only [DynamicStructure.unpack,
    propListLoop_sentinel fuel lim p data rest hd hl]

/-! ## C4 — `bookmark` position restore -/

/-- C4 (counterexample): the claim says the position is restored on every
exit path including a decode failure; here a body that advances one byte
and then fails leaves the stream at position 1, not the original 0. -/
theorem C4_counterexample_no_restore_on_failure :
    (StructIo.bookmark advanceThenFail ⟨[0, 0], 0⟩).2.pos ≠
      (⟨[0, 0], 0⟩ : RState).pos := by decide

/-- C4 (amended): `bookmark` restores the saved position exactly on the
normal-return path; when the body raises, the generator never resumes and
the stream stays wherever the body left it. -/
theorem C4_bookmark_restores_only_on_normal_exit {α : Type}
    (body : RState → IOResult α) (s : RState) :
    (∀ (a : α) (s' : RState), body s = (.ok a, s') →
        StructIo.bookmark body s = (.ok a, ⟨s'.data, s.pos⟩)) ∧
    (∀ (e : Err) (s' : RState), body s = (.error e, s') →
        StructIo.bookmark body s = (.error e, s')) := by
  constructor
  · intro a s' h
    simp [StructIo.bookmark, h]
  · intro e s' h
    simp [StructIo.bookmark, h]

/-- C4 witness: the amended theorem applied to the two concrete bodies. -/
theorem C4_bookmark_witness :
    StructIo.bookmark advanceThenOk ⟨[5, 6], 0⟩ = (.ok (), ⟨[5, 6], 0⟩) ∧
    StructIo.bookmark advanceThenFail ⟨[5, 6], 0⟩ =
      (.error .shortRead, ⟨[5, 6], 1⟩) :=
  ⟨(C4_bookmark_restores_only_on_normal_exit advanceThenOk ⟨[5, 6], 0⟩).1 ()
      ⟨[5, 6], 1⟩ rfl,
    (C4_bookmark_restores_only_on_normal_exit advanceThenFail ⟨[5, 6], 0⟩).2
      .shortRead ⟨[5, 6], 1⟩ rfl⟩

/-! ## C6 — Int64 whole-array vs bare-element decoder -/

/-- C6 (code bug): on the 8 little-endian bytes of `2^32`, the registered
Int64 whole-array decoder with `count = 1` consumes 4 bytes and yields
`[0]` (it parses unsigned 32-bit integers), while one invocation of the
Int64 bare-element decoder consumes 8 bytes and yields `2^32`. -/
theorem C6_int64_bulk_decoder_diverges :
    Int64PropertyData.unpack_array 8 1 ⟨[0, 0, 0, 0, 1, 0, 0, 0], 0⟩ =
      .ok ([0], ⟨[0, 0, 0, 0, 1, 0, 0, 0], 4⟩) ∧
    Int64PropertyData.unpack_element 8 ⟨[0, 0, 0, 0, 1, 0, 0, 0], 0⟩ =
      .ok (4294967296, ⟨[0, 0, 0, 0, 1, 0, 0, 0], 8⟩) := by
  constructor <;> rfl

/-! ## C1 — round-trip of the fixed native structs -/

/-- C1 (code bug): every `pack` of the fixed native structs hands the
whole field tuple to `struct.Struct.pack` as a single argument, so the
arity check fails and encoding always raises `struct.error`; no value can
round-trip.  (`GuidStructure` has no `pack` at all, and `Color.pack` has
the same single-argument call.) -/
theorem C1_native_struct_pack_always_fails :
    (∀ v : Vector2, Vector2.pack v = .error .arityError) ∧
    (∀ v : Vector3, Vector3.pack v = .error .arityError) ∧
    (∀ v : Vector4, Vector4.pack v = .error .arityError) ∧
    (∀ c : Color32, c.is_valid = true → Color32.pack c = .error .arityError) := by
  refine ⟨fun v => rfl, fun v => rfl, fun v => rfl, fun c h => ?_⟩
  simp [Color32.pack, h, StructIo.pack, structPack]

/-- C1 witness: a concrete valid color (and so any concrete vector) fails
to encode. -/
theorem C1_pack_witness :
    Color32.pack ⟨0, 64, 128, 255⟩ = .error .arityError :=
  C1_native_struct_pack_always_fails.2.2.2 ⟨0, 64, 128, 255⟩ (by decide)

/-! ## C5 — chunk-header redundancy check -/

/-- C5: decoding the 48 header bytes yields the four primary fields when
both verification copies match, and fails with the verify-mismatch error —
for every possible inflate function, i.e. before any decompression — when
either copy disagrees. -/
theorem C5_chunk_header_verify_before_decompress (tag m c u cv uv : Nat)
    (ht : tag < 2 ^ 64) (hm : m < 2 ^ 64) (hc : c < 2 ^ 64) (hu : u < 2 ^ 64)
    (hcv : cv < 2 ^ 64) (huv : uv < 2 ^ 64) :
    (c = cv → u = uv →
      ChunkHeader.unpack 48 ⟨mkChunkHeaderBytes tag m c u cv uv, 0⟩ =
        .ok (⟨tag, m, c, u⟩, ⟨mkChunkHeaderBytes tag m c u cv uv, 48⟩)) ∧
    ((c ≠ cv ∨ u ≠ uv) → ∀ inflate : List Nat → Option (List Nat),
      Chunk.unpackAndRead inflate 48 ⟨mkChunkHeaderBytes tag m c u cv uv, 0⟩ =
        .error .verifyMismatch) := by
  have hmod : ∀ x : Nat, x < 2 ^ 64 → x % 256 ^ 8 = x := fun x hx =>
    Nat.mod_eq_of_lt (lt_of_lt_of_le hx (by norm_num))
  set bs := mkChunkHeaderBytes tag m c u cv uv with hbs
  have hlen : bs.length = 48 := by
    simp [hbs, mkChunkHeaderBytes, leBytes_length]
  have hread : readExact 48 48 ⟨bs, 0⟩ = .ok (bs, ⟨bs, 48⟩) := by
    have h := readExact_eq 48 48 0 bs bs [] (by simp) hlen (by omega)
    simpa using h
  have h1 : bs.take 8 = leBytes 8 tag := by
    rw [hbs, mkChunkHeaderBytes]
    exact List.take_left' (leBytes_length 8 tag)
  have hd8 : bs.drop 8 = leBytes 8 m ++ (leBytes 8 c ++ (leBytes 8 u ++
      (leBytes 8 cv ++ leBytes 8 uv))) := by
    rw [hbs, mkChunkHeaderBytes]
    exact List.drop_left' (leBytes_length 8 tag)
  have h2 : (bs.drop 8).take 8 = leBytes 8 m := by
    rw [hd8]; exact List.take_left' (leBytes_length 8 m)
  have hd16 : bs.drop 16 = leBytes 8 c ++ (leBytes 8 u ++
      (leBytes 8 cv ++ leBytes 8 uv)) := by
    have hh : bs.drop 16 = (bs.drop 8).drop 8 := (List.drop_drop 8 8 bs).symm
    rw [hh, hd8]; exact List.drop_left' (leBytes_length 8 m)
  have h3 : (bs.drop 16).take 8 = leBytes 8 c := by
    rw [hd16]; exact List.take_left' (leBytes_length 8 c)
  have hd24 : bs.drop 24 = leBytes 8 u ++ (leBytes 8 cv ++ leBytes 8 uv) := by
    have hh : bs.drop 24 = (bs.drop 16).drop 8 := (List.drop_drop 8 16 bs).symm
    rw [hh, hd16]; exact List.drop_left' (leBytes_length 8 c)
  have h4 : (bs.drop 24).take 8 = leBytes 8 u := by
    rw [hd24]; exact List.take_left' (leBytes_length 8 u)
  have hd32 : bs.drop 32 = leBytes 8 cv ++ leBytes 8 uv := by
    have hh : bs.drop 32 = (bs.drop 24).drop 8 := (List.drop_drop 8 24 bs).symm
    rw [hh, hd24]; exact List.drop_left' (leBytes_length 8 u)
  have h5 : (bs.drop 32).take 8 = leBytes 8 cv := by
    rw [hd32]; exact List.take_left' (leBytes_length 8 cv)
  have hd40 : bs.drop 40 = leBytes 8 uv := by
    have hh : bs.drop 40 = (bs.drop 32).drop 8 := (List.drop_drop 8 32 bs).symm
    rw [hh, hd32]; exact List.drop_left' (leBytes_length 8 cv)
  have h6 : (bs.drop 40).take 8 = leBytes 8 uv := by
    rw [hd40]; exact List.take_of_length_le (le_of_eq (leBytes_length 8 uv))
  have hunpack : ChunkHeader.unpack 48 ⟨bs, 0⟩ =
      (if c = cv then
        if u = uv then .ok (⟨tag, m, c, u⟩, ⟨bs, 48⟩)
        else .error .verifyMismatch
      else .error .verifyMismatch) := by
    simp only [ChunkHeader.unpack, hread, h1, h2, h3, h4, h5, h6,
      leNat_leBytes, hmod tag ht, hmod m hm, hmod c hc, hmod u hu,
      hmod cv hcv, hmod uv huv]
  constructor
  · intro hceq hueq
    rw [hunpack, if_pos hceq, if_pos hueq]
  · intro hne inflate
    have herr : ChunkHeader.unpack 48 ⟨bs, 0⟩ = .error .verifyMismatch := by
      rw [hunpack]
      rcases hne with h | h
      · rw [if_neg h]
      · by_cases hc2 : c = cv
        · rw [if_pos hc2, if_neg h]
        · rw [if_neg hc2]
    simp [Chunk.unpackAndRead, Chunk.unpack, herr]

/-- C5 witness: the spec's own example — `compressed_len = 100`,
`uncompressed_len = 200` decodes when the copies agree, and a verify field
changed by 1 fails before any inflate function is consulted. -/
theorem C5_chunk_header_witness :
    ChunkHeader.unpack 48 ⟨mkChunkHeaderBytes 1 2 100 200 100 200, 0⟩ =
      .ok (⟨1, 2, 100, 200⟩, ⟨mkChunkHeaderBytes 1 2 100 200 100 200, 48⟩) ∧
    Chunk.unpackAndRead (fun _ => none) 48
        ⟨mkChunkHeaderBytes 1 2 100 200 101 200, 0⟩ =
      .error .verifyMismatch ∧
    Chunk.unpackAndRead (fun _ => none) 48
        ⟨mkChunkHeaderBytes 1 2 100 200 100 201, 0⟩ =
      .error .verifyMismatch :=
  ⟨(C5_chunk_header_verify_before_decompress 1 2 100 200 100 200 (by decide)
      (by decide) (by decide) (by decide) (by decide) (by decide)).1 rfl rfl,
    (C5_chunk_header_verify_before_decompress 1 2 100 200 101 200 (by decide)
      (by decide) (by decide) (by decide) (by decide) (by decide)).2
      (Or.inl (by decide)) (fun _ => none),
    (C5_chunk_header_verify_before_decompress 1 2 100 200 100 201 (by decide)
      (by decide) (by decide) (by decide) (by decide) (by decide)).2
      (Or.inr (by decide)) (fun _ => none)⟩

/-! ## C7 — `BinaryWindow` bounds -/

/-- Evaluation lemma: `BinaryWindow.seek` once the target is computed. -/
theorem BinaryWindow.seek_eval (w : BinaryWindow) (offset : Int)
    (whence : Nat) (s : RState) (t : Int)
    (ht : w.seekTarget offset whence s = some t) :
    w.seek offset whence s =
      if t < 0 then .error .badSeek
      else if w.start ≤ t.toNat ∧ t.toNat ≤ w.stop then
        .ok (t.toNat - w.start, ⟨s.data, t.toNat⟩)
      else .error .windowInvalid := by
  unfold BinaryWindow.seek
  rw [ht]

/-- C7: from any position inside a window lying within the buffer,
`read(n)` advances by exactly the returned bytes, never crosses the window
end, returns exactly `n` bytes or fewer only by stopping at the window
end, and keeps `start ≤ position ≤ end`; a successful `seek` lands exactly
on the recomputed target inside `[start, end]`, and a target outside the
window raises instead of being clamped. -/
theorem C7_binary_window_bounds (w : BinaryWindow) (s : RState)
    (hs : w.start ≤ s.pos) (hp : s.pos ≤ w.stop)
    (hl : w.stop ≤ s.data.length) :
    (∀ n : Nat,
      ((w.read (n : Int) s).2.data = s.data) ∧
      ((w.read (n : Int) s).2.pos = s.pos + (w.read (n : Int) s).1.length) ∧
      w.start ≤ (w.read (n : Int) s).2.pos ∧
      (w.read (n : Int) s).2.pos ≤ w.stop ∧
      ((w.read (n : Int) s).1.length = n ∨
        (w.read (n : Int) s).2.pos = w.stop)) ∧
    (∀ (offset : Int) (whence : Nat) (p : Nat) (s' : RState),
      w.seek offset whence s = .ok (p, s') →
        s'.data = s.data ∧ w.start ≤ s'.pos ∧ s'.pos ≤ w.stop ∧
        w.seekTarget offset whence s = some (s'.pos : Int) ∧
        p = s'.pos - w.start) ∧
    (∀ (offset : Int) (whence : Nat) (t : Int),
      w.seekTarget offset whence s = some t →
      (t < (w.start : Int) ∨ (w.stop : Int) < t) →
      ∃ e, w.seek offset whence s = .error e) := by
  refine ⟨fun n => ?_, fun offset whence p s' h => ?_, fun offset whence t ht hout => ?_⟩
  · have hne : ((n : Nat) : Int) ≠ -1 := by omega
    by_cases hc : ((n : Nat) : Int) ≤ ((w.stop - s.pos : Nat) : Int)
    · have hcn : n ≤ w.stop - s.pos := by exact_mod_cast hc
      simp only [BinaryWindow.read, BinaryWindow.remaining, rawRead, hne,
        if_false, hc, if_true]
      have hneg : ¬ (((n : Nat) : Int) < 0) := by omega
      simp only [hneg, if_false, Int.toNat_natCast, List.length_take,
        List.length_drop]
      refine ⟨by trivial, by trivial, by omega, by omega, ?_⟩
      left; omega
    · simp only [BinaryWindow.read, BinaryWindow.remaining, rawRead, hne,
        if_false, hc]
      have hneg : ¬ (((w.stop - s.pos : Nat) : Int) < 0) := by omega
      simp only [hneg, if_false, Int.toNat_natCast, List.length_take,
        List.length_drop]
      have hcn : w.stop - s.pos < n := by omega
      refine ⟨by trivial, by trivial, by omega, by omega, ?_⟩
      right; omega
  · cases hst : w.seekTarget offset whence s with
    | none =>
        unfold BinaryWindow.seek at h
        rw [hst] at h
        cases h
    | some t =>
        rw [BinaryWindow.seek_eval w offset whence s t hst] at h
        split_ifs at h with h1 h2
        · simp only [Except.ok.injEq, Prod.mk.injEq] at h
          obtain ⟨rfl, rfl⟩ := h
          exact ⟨rfl, h2.1, h2.2,
            congrArg some (Int.toNat_of_nonneg (by omega)).symm, rfl⟩
  · by_cases htn : t < 0
    · exact ⟨.badSeek, by
        rw [BinaryWindow.seek_eval w offset whence s t ht, if_pos htn]⟩
    · have htt : (t.toNat : Int) = t := Int.toNat_of_nonneg (by omega)
      have hb : ¬ (w.start ≤ t.toNat ∧ t.toNat ≤ w.stop) := by omega
      exact ⟨.windowInvalid, by
        rw [BinaryWindow.seek_eval w offset whence s t ht, if_neg htn,
          if_neg hb]⟩

/-- C7 witness: a window `[2, 5]` over an 8-byte buffer at position 3 — an
over-long read stops exactly at the window end, an in-window absolute seek
lands exactly on its target, and a seek past the end fails. -/
theorem C7_binary_window_witness :
    (BinaryWindow.read ⟨2, 5⟩ (10 : Nat) ⟨[0, 1, 2, 3, 4, 5, 6, 7], 3⟩).1.length = 10 ∨
    (BinaryWindow.read ⟨2, 5⟩ (10 : Nat) ⟨[0, 1, 2, 3, 4, 5, 6, 7], 3⟩).2.pos = 5 :=
  ((C7_binary_window_bounds ⟨2, 5⟩ ⟨[0, 1, 2, 3, 4, 5, 6, 7], 3⟩ (by decide)
    (by decide) (by decide)).1 10).2.2.2.2

/-! ## C2 — `SaveBody` declared-size check -/

/-- C2: `SaveBody.unpack` reads `declared_size` and rejects the body with
the dedicated size-mismatch error — before attempting any object decode,
whatever the remaining bytes hold — unless it equals the byte count from
just after the field to end-of-stream; the minimal
`{size}{0 objects}{0}{0 collected}` body decodes to a `SaveBody` with
empty object and collected lists. -/
theorem C2_savebody_declared_size (d : Nat) (rest : List Nat)
    (hd : d < 2 ^ 32) :
    (∀ fuel, d ≠ rest.length →
      SaveBody.unpack fuel ⟨leBytes 4 d ++ rest, 0⟩ =
        .error .bodySizeMismatch) ∧
    (∀ fuel, SaveBody.unpack fuel ⟨minimalBody, 0⟩ =
      .ok (⟨12, [], []⟩, ⟨minimalBody, 16⟩)) := by
  constructor
  · intro fuel hne
    have hlen : (leBytes 4 d ++ rest).length = 4 + rest.length := by
      simp [leBytes_length]
    have hr := readU32_eq (leBytes 4 d ++ rest).length 0 d
      (leBytes 4 d ++ rest) rest (by rw [List.drop_zero]) hd (by omega)
    simp only [SaveBody.unpack, hr]
    rw [if_neg (by omega)]
  · intro fuel
    rfl

/-- C2 witness: a declared size off by one (13 against 12 remaining bytes)
is rejected, and the minimal body decodes to the empty `SaveBody`. -/
theorem C2_savebody_witness :
    SaveBody.unpack 1 ⟨leBytes 4 13 ++ twelveZeros, 0⟩ =
      .error .bodySizeMismatch ∧
    SaveBody.unpack 1 ⟨minimalBody, 0⟩ =
      .ok (⟨12, [], []⟩, ⟨minimalBody, 16⟩) :=
  ⟨(C2_savebody_declared_size 13 twelveZeros (by decide)).1 1 (by decide),
    (C2_savebody_declared_size 13 twelveZeros (by decide)).2 1⟩

/-! ## C8 — unknown property types are fatal -/

/-- C8: `Text`, `Set` and `Int8` have no entry in `_unpack_map`, and any
full property whose decoded header carries a type with no registered
decoder makes `Property.unpack` fail with the unknown-type error — no
partial property and no silent skip. -/
theorem C8_unknown_property_type_fatal :
    hasUnpacker .Text = false ∧ hasUnpacker .Set = false ∧
    hasUnpacker .Int8 = false ∧
    ∀ (fuel lim : Nat) (s s' : RState) (hdr : PropertyHeader),
      PropertyHeader.unpack lim s = .ok (some hdr, s') →
      hasUnpacker hdr.property_type = false →
      Property.unpack (fuel + 1) lim s = .error .unknownPropertyType := by
  refine ⟨rfl, rfl, rfl, fun fuel lim s s' hdr h1 h2 => ?_⟩
  simp only [Property.unpack, h1, h2]
  rfl

/-- C8 witness: a property tagged `TextProperty` (name `"A"`, size 0)
fails with the unknown-type error. -/
theorem C8_unknown_type_witness :
    Property.unpack 1 29 ⟨textPropBytes, 0⟩ = .error .unknownPropertyType :=
  C8_unknown_property_type_fatal.2.2.2 0 29 ⟨textPropBytes, 0⟩
    ⟨textPropBytes, 29⟩ ⟨strBytes "A", .Text, 0, 0⟩ rfl rfl

/-! ## C9 — property-list termination -/

/-- C9: a property list whose first decoded name is the sentinel decodes
to the empty list, then reads one trailing 32-bit integer that must be
exactly zero; the decode consumes exactly the sentinel's wire bytes (the
9 bytes of the length-prefixed `"None\x00"`) plus 4 — position 13 — and
reads no type/size/index fields for the sentinel. -/
theorem C9_property_list_termination (z : Nat) (tail : List Nat)
    (fuel lim size : Nat) (hz : z < 2 ^ 32) (hlim : 13 ≤ lim)
    (hsize : 13 ≤ size) :
    WorldObjectProperties.unpack (fuel + 2) lim size
        ⟨vEnc (strBytes "None\x00") ++ (leBytes 4 z ++ tail), 0⟩ =
      if z = 0 then
        .ok ([], ⟨vEnc (strBytes "None\x00") ++ (leBytes 4 z ++ tail), 13⟩)
      else .error .zeroCheck := by
  set data := vEnc (strBytes "None\x00") ++ (leBytes 4 z ++ tail) with hdata
  have hv : readVBytes (min lim (0 + size)) ⟨data, 0⟩ =
      .ok (strBytes "None\x00", ⟨data, 9⟩) := by
    have h := readVBytes_eq (min lim (0 + size)) 0 5 data
      (strBytes "None\x00") (leBytes 4 z ++ tail) (by rw [hdata]; rfl)
      (by decide) (by decide) (by omega)
    simpa using h
  have hh : PropertyHeader.unpack (min lim (0 + size)) ⟨data, 0⟩ =
      .ok (none, ⟨data, 9⟩) := by
    simp only [PropertyHeader.unpack, hv]
    rw [if_pos (by decide)]
  have hpl : propListLoop (fuel + 1 + 1) (min lim (0 + size)) ⟨data, 0⟩ =
      .ok ([], ⟨data, 9⟩) := by
    simp only [propListLoop, Property.unpack, hh]
  have hz32 : readU32 (min lim (0 + size)) ⟨data, 9⟩ = .ok (z, ⟨data, 13⟩) := by
    have hd9 : data.drop 9 = leBytes 4 z ++ tail := by
      rw [hdata]
      exact List.drop_left' (by decide)
    simpa using readU32_eq (min lim (0 + size)) 9 z data tail hd9 hz (by omega)
  rw [show fuel + 2 = fuel + 1 + 1 from rfl]
  simp only [WorldObjectProperties.unpack, hpl, hz32]

/-- C9 witness: sentinel followed by a zero field and two stray bytes
beyond the consumed region decodes to the empty list at position 13. -/
theorem C9_termination_witness :
    WorldObjectProperties.unpack 2 20 20
        ⟨vEnc (strBytes "None\x00") ++ (leBytes 4 0 ++ [7, 7]), 0⟩ =
      .ok ([], ⟨vEnc (strBytes "None\x00") ++ (leBytes 4 0 ++ [7, 7]), 13⟩) := by
  have h := C9_property_list_termination 0 [7, 7] 0 20 20 (by decide)
    (by decide) (by decide)
  simpa using h

/-! ## C10 — structure-registry dispatch -/

/-- C10: a struct-type name absent from the registry table decodes through
the dynamic-structure fallback (a property-list decode) with the name
assigned afterwards, whereas `"FINNetworkTrace"` and
`"RailroadTrackPosition"` — present in the table but mapped to `None` —
fail instead of falling back. -/
theorem C10_registry_fallback_and_null_entries (name : List Nat)
    (fuel lim : Nat) (s : RState) :
    (structRegistry name = none → name ≠ [] → name.getLast? ≠ some 0 →
      Structure.unpack_as_type (fuel + 1) lim name s =
        (match DynamicStructure.unpack fuel lim s with
          | .error e => .error e
          | .ok (st, s') => .ok (st.withType name, s'))) ∧
    Structure.unpack_as_type (fuel + 1) lim (strBytes "FINNetworkTrace") s =
      .error .nullUnpacker ∧
    Structure.unpack_as_type (fuel + 1) lim (strBytes "RailroadTrackPosition")
        s = .error .nullUnpacker := by
  refine ⟨fun h1 h2 h3 => ?_, ?_, ?_⟩
  · simp only [Structure.unpack_as_type]
    rw [if_neg h2, if_neg h3, h1]
  · simp only [Structure.unpack_as_type]
    rw [if_neg (by decide), if_neg (by decide)]
    rfl
  · simp only [Structure.unpack_as_type]
    rw [if_neg (by decide), if_neg (by decide)]
    rfl

/-- C10 witness: the unknown name `"Foo"` over a sentinel-only stream
decodes to a dynamic structure with an empty property list and the name
assigned. -/
theorem C10_registry_witness :
    Structure.unpack_as_type 4 100 (strBytes "Foo")
        ⟨vEnc (strBytes "None\x00"), 0⟩ =
      .ok (.mk (some (strBytes "Foo")) (.dynamic []),
        ⟨vEnc (strBytes "None\x00"), 9⟩) := by
  have h := (C10_registry_fallback_and_null_entries (strBytes "Foo") 3 100
    ⟨vEnc (strBytes "None\x00"), 0⟩).1 rfl (by decide) (by decide)
  have h2 : DynamicStructure.unpack 3 100 ⟨vEnc (strBytes "None\x00"), 0⟩ =
      .ok (.mk none (.dynamic []), ⟨vEnc (strBytes "None\x00"), 9⟩) :=
    dynamicUnpack_sentinel 0 100 0 (vEnc (strBytes "None\x00")) []
      (by decide) (by decide)
  rw [h, h2]
  rfl

/-! ## C3 — excess bytes in the object property window -/

/-- C3 (counterexample): the object type path `"X"` is in no allow-list,
yet a property block with one leftover byte inside its declared window
decodes successfully, the byte recorded in `excess_data` — leftover bytes
are not a fatal decode failure for non-allow-listed paths. -/
theorem C3_counterexample_excess_not_fatal :
    DataWorldObject.read_properties 10 30 (hdrWithPath (strBytes "X")) none
        0 ⟨0, 0, 0, 0⟩ ⟨0, 0, 0⟩ ⟨0, 0, 0⟩ 0
        ⟨objectBlockWithExcess [171], 0⟩ =
      .ok (.dataObj (hdrWithPath (strBytes "X")) (some []) 0 ⟨0, 0, 0, 0⟩
        ⟨0, 0, 0⟩ ⟨0, 0, 0⟩ 0 (some []) (some []) (some []) (some [171]),
        ⟨objectBlockWithExcess [171], 30⟩) := by
  have r1 : readU32 30 ⟨objectBlockWithExcess [171], 0⟩ =
      .ok (26, ⟨objectBlockWithExcess [171], 4⟩) := rfl
  have r2 : readVBytes 30 ⟨objectBlockWithExcess [171], 4⟩ =
      .ok ([], ⟨objectBlockWithExcess [171], 8⟩) := rfl
  have r3 : readVBytes 30 ⟨objectBlockWithExcess [171], 8⟩ =
      .ok ([], ⟨objectBlockWithExcess [171], 12⟩) := rfl
  have r4 : readU32 30 ⟨objectBlockWithExcess [171], 12⟩ =
      .ok (0, ⟨objectBlockWithExcess [171], 16⟩) := rfl
  have r5 : componentsLoop 30 0 ⟨objectBlockWithExcess [171], 16⟩ =
      .ok ([], ⟨objectBlockWithExcess [171], 16⟩) := rfl
  have hw : WorldObjectProperties.unpack 10 30 14
      ⟨objectBlockWithExcess [171], 16⟩ =
      .ok ([], ⟨objectBlockWithExcess [171], 29⟩) := by
    have hpl : propListLoop 10 (min 30 (16 + 14))
        ⟨objectBlockWithExcess [171], 16⟩ =
        .ok ([], ⟨objectBlockWithExcess [171], 25⟩) := by
      have h := propListLoop_sentinel 8 (min 30 (16 + 14)) 16
        (objectBlockWithExcess [171]) (leBytes 4 0 ++ [171]) (by decide)
        (by decide)
      simpa using h
    have hz : readU32 (min 30 (16 + 14)) ⟨objectBlockWithExcess [171], 25⟩ =
        .ok (0, ⟨objectBlockWithExcess [171], 29⟩) := by
      have h := readU32_eq (min 30 (16 + 14)) 25 0
        (objectBlockWithExcess [171]) [171] (by decide) (by decide) (by decide)
      simpa using h
    simp only [WorldObjectProperties.unpack, hpl, hz]
    simp
  have r6 : readN 30 1 ⟨objectBlockWithExcess [171], 29⟩ =
      ([171], ⟨objectBlockWithExcess [171], 30⟩) := rfl
  simp [DataWorldObject.read_properties, r1, r2, r3, r4, r5, hw, r6,
    buffer_to_str]

/-- C3 (amended): after the property-list decode, leftover bytes in the
object's property window are tolerated for every object type-path — the
source's allow-list is commented out and the path is never consulted —
and recorded in `excess_data` when present (`none` when the window is
exactly consumed), never a fatal failure. -/
theorem C3_excess_recorded_for_every_type_path (tp : List Nat) (fuel : Nat) :
    (DataWorldObject.read_properties (fuel + 2) 30 (hdrWithPath tp) none 0
        ⟨0, 0, 0, 0⟩ ⟨0, 0, 0⟩ ⟨0, 0, 0⟩ 0
        ⟨objectBlockWithExcess [171], 0⟩ =
      .ok (.dataObj (hdrWithPath tp) (some []) 0 ⟨0, 0, 0, 0⟩ ⟨0, 0, 0⟩
        ⟨0, 0, 0⟩ 0 (some []) (some []) (some []) (some [171]),
        ⟨objectBlockWithExcess [171], 30⟩)) ∧
    (DataWorldObject.read_properties (fuel + 2) 29 (hdrWithPath tp) none 0
        ⟨0, 0, 0, 0⟩ ⟨0, 0, 0⟩ ⟨0, 0, 0⟩ 0 ⟨objectBlockWithExcess [], 0⟩ =
      .ok (.dataObj (hdrWithPath tp) (some []) 0 ⟨0, 0, 0, 0⟩ ⟨0, 0, 0⟩
        ⟨0, 0, 0⟩ 0 (some []) (some []) (some []) none,
        ⟨objectBlockWithExcess [], 29⟩)) := by
  constructor
  · have r1 : readU32 30 ⟨objectBlockWithExcess [171], 0⟩ =
        .ok (26, ⟨objectBlockWithExcess [171], 4⟩) := rfl
    have r2 : readVBytes 30 ⟨objectBlockWithExcess [171], 4⟩ =
        .ok ([], ⟨objectBlockWithExcess [171], 8⟩) := rfl
    have r3 : readVBytes 30 ⟨objectBlockWithExcess [171], 8⟩ =
        .ok ([], ⟨objectBlockWithExcess [171], 12⟩) := rfl
    have r4 : readU32 30 ⟨objectBlockWithExcess [171], 12⟩ =
        .ok (0, ⟨objectBlockWithExcess [171], 16⟩) := rfl
    have r5 : componentsLoop 30 0 ⟨objectBlockWithExcess [171], 16⟩ =
        .ok ([], ⟨objectBlockWithExcess [171], 16⟩) := rfl
    have hw : WorldObjectProperties.unpack (fuel + 2) 30 14
        ⟨objectBlockWithExcess [171], 16⟩ =
        .ok ([], ⟨objectBlockWithExcess [171], 29⟩) := by
      have hpl : propListLoop (fuel + 2) (min 30 (16 + 14))
          ⟨objectBlockWithExcess [171], 16⟩ =
          .ok ([], ⟨objectBlockWithExcess [171], 25⟩) := by
        have h := propListLoop_sentinel fuel (min 30 (16 + 14)) 16
          (objectBlockWithExcess [171]) (leBytes 4 0 ++ [171]) (by decide)
          (by decide)
        simpa using h
      have hz : readU32 (min 30 (16 + 14)) ⟨objectBlockWithExcess [171], 25⟩ =
          .ok (0, ⟨objectBlockWithExcess [171], 29⟩) := by
        have h := readU32_eq (min 30 (16 + 14)) 25 0
          (objectBlockWithExcess [171]) [171] (by decide) (by decide)
          (by decide)
        simpa using h
      simp only [WorldObjectProperties.unpack, hpl, hz]
      simp
    have r6 : readN 30 1 ⟨objectBlockWithExcess [171], 29⟩ =
        ([171], ⟨objectBlockWithExcess [171], 30⟩) := rfl
    simp [DataWorldObject.read_properties, r1, r2, r3, r4, r5, hw, r6,
      buffer_to_str]
  · have r1 : readU32 29 ⟨objectBlockWithExcess [], 0⟩ =
        .ok (25, ⟨objectBlockWithExcess [], 4⟩) := rfl
    have r2 : readVBytes 29 ⟨objectBlockWithExcess [], 4⟩ =
        .ok ([], ⟨objectBlockWithExcess [], 8⟩) := rfl
    have r3 : readVBytes 29 ⟨objectBlockWithExcess [], 8⟩ =
        .ok ([], ⟨objectBlockWithExcess [], 12⟩) := rfl
    have r4 : readU32 29 ⟨objectBlockWithExcess [], 12⟩ =
        .ok (0, ⟨objectBlockWithExcess [], 16⟩) := rfl
    have r5 : componentsLoop 29 0 ⟨objectBlockWithExcess [], 16⟩ =
        .ok ([], ⟨objectBlockWithExcess [], 16⟩) := rfl
    have hw : WorldObjectProperties.unpack (fuel + 2) 29 13
        ⟨objectBlockWithExcess [], 16⟩ =
        .ok ([], ⟨objectBlockWithExcess [], 29⟩) := by
      have hpl : propListLoop (fuel + 2) (min 29 (16 + 13))
          ⟨objectBlockWithExcess [], 16⟩ =
          .ok ([], ⟨objectBlockWithExcess [], 25⟩) := by
        have h := propListLoop_sentinel fuel (min 29 (16 + 13)) 16
          (objectBlockWithExcess []) (leBytes 4 0) (by decide) (by decide)
        simpa using h
      have hz : readU32 (min 29 (16 + 13)) ⟨objectBlockWithExcess [], 25⟩ =
          .ok (0, ⟨objectBlockWithExcess [], 29⟩) := by
        have h := readU32_eq (min 29 (16 + 13)) 25 0
          (objectBlockWithExcess []) [] (by decide) (by decide) (by decide)
        simpa using h
      simp only [WorldObjectProperties.unpack, hpl, hz]
      simp
    have r6 : readN 29 0 ⟨objectBlockWithExcess [], 29⟩ =
        ([], ⟨objectBlockWithExcess [], 29⟩) := rfl
    simp [DataWorldObject.read_properties, r1, r2, r3, r4, r5, hw, r6,
      buffer_to_str]

end SerTools
